import Mathlib

/-!
Verification of the address-translation core of hw/i386/intel_iommu.c.

The definitions below are a shallow embedding of the functions named in the
claims.  Machine integers are modelled as `Nat` with explicit 64-bit masking
where the C code can wrap.  Guest memory is a partial map from byte addresses
to 64-bit values; a failed DMA read is the `none` case and is turned into the
all-ones sentinel exactly as `vtd_get_slpte` / `vtd_get_flpte` do.

Constants that live in the intel_iommu_internal.h header (which is not part
of the sources at hand) are modelled from the specification text; each such
definition carries a doc comment starting with `Modelled from the spec:`.
-/

namespace VTD

/-- The value `(uint64_t)-1`, i.e. `2^64 - 1`, used by `vtd_get_slpte` and
`vtd_get_flpte` as the sentinel for a failed guest-memory read. -/
def u64Max : Nat := 2 ^ 64 - 1

/-- Modelled from the spec: 4 KiB leaf pages, so the page shift is 12
(`VTD_PAGE_SHIFT_4K` in the header). -/
def VTD_PAGE_SHIFT_4K : Nat := 12

/-- Modelled from the spec: `VTD_PAGE_MASK_4K`, the 64-bit mask clearing the
low 12 bits. -/
def VTD_PAGE_MASK_4K : Nat := u64Max ^^^ (2 ^ 12 - 1)

/-- Modelled from the spec: each second-stage table level indexes with 9 bits
(`VTD_SL_LEVEL_BITS`). -/
def VTD_SL_LEVEL_BITS : Nat := 9

/-- Modelled from the spec: the leaf (4 KiB) second-stage level is 1
(`VTD_SL_PT_LEVEL`); the lookup loop probes levels from here upward. -/
def VTD_SL_PT_LEVEL : Nat := 1

/-- Modelled from the spec: the 2 MiB large-page level (`VTD_SL_PD_LEVEL`). -/
def VTD_SL_PD_LEVEL : Nat := 2

/-- Modelled from the spec: the 1 GiB large-page level (`VTD_SL_PDP_LEVEL`). -/
def VTD_SL_PDP_LEVEL : Nat := 3

/-- Modelled from the spec: the topmost 4-level table level
(`VTD_SL_PML4_LEVEL`); levels 1..4 are validated. -/
def VTD_SL_PML4_LEVEL : Nat := 4

/-- Modelled from the spec: the page-size bit of a paging entry, bit 7
(`VTD_SL_PT_PAGE_SIZE_MASK`). -/
def VTD_SL_PT_PAGE_SIZE_MASK : Nat := 1 <<< 7

/-- Modelled from the spec: the second-stage read-permission bit, bit 0
(`VTD_SL_R`). -/
def VTD_SL_R : Nat := 1

/-- Modelled from the spec: the second-stage write-permission bit, bit 1
(`VTD_SL_W`). -/
def VTD_SL_W : Nat := 1 <<< 1

/-- Modelled from the spec: first byte of the reserved local-interrupt
address window (`VTD_INTERRUPT_ADDR_FIRST`). -/
def VTD_INTERRUPT_ADDR_FIRST : Nat := 0xfee00000

/-- Modelled from the spec: last byte of the reserved local-interrupt
address window (`VTD_INTERRUPT_ADDR_LAST`). -/
def VTD_INTERRUPT_ADDR_LAST : Nat := 0xfeefffff

/-- Modelled from the spec: `VTD_SL_PT_BASE_ADDR_MASK(aw)`, the frame bits of
a second-stage entry: the page-aligned bits below the address width `aw`. -/
def VTD_SL_PT_BASE_ADDR_MASK (aw : Nat) : Nat :=
  VTD_PAGE_MASK_4K &&& ((1 <<< aw) - 1)

/-- Modelled from the spec: the fault-processing-disable bit of a context
entry (`VTD_CONTEXT_ENTRY_FPD`), bit 1 of the low half. -/
def VTD_CONTEXT_ENTRY_FPD : Nat := 2

/-- Modelled from the spec: `VTD_CONTEXT_ENTRY_AW`, the 3-bit address-width
field mask in the high half of a context entry. -/
def VTD_CONTEXT_ENTRY_AW : Nat := 7

/-- Modelled from the spec: `VTD_CONTEXT_ENTRY_SLPTPTR`, the mask extracting
the second-stage paging-root pointer from the low half of a context entry. -/
def VTD_CONTEXT_ENTRY_SLPTPTR : Nat := u64Max ^^^ (2 ^ 12 - 1)

/-- The fault reasons (`VTDFaultReason` values) that the embedded functions
can produce; names follow the `VTD_FR_*` constants used in the source. -/
inductive VTDFaultReason where
  | contextEntryInv
  | pagingEntryInv
  | writeFault
  | readFault
  | pagingEntryRsvd
  | addrBeyondMGAW
  | interruptAddr
  | smInterruptAddr
  | contextTableInv
  deriving DecidableEq, Repr

/-- Guest memory as seen through `dma_memory_read` of one 64-bit word:
`none` models a failed read. -/
def GuestMem := Nat → Option Nat

/-- Embeds `vtd_slpt_level_shift`: the address shift for a second-stage
level. -/
def vtd_slpt_level_shift (level : Nat) : Nat :=
  VTD_PAGE_SHIFT_4K + (level - 1) * VTD_SL_LEVEL_BITS

/-- Embeds `vtd_slpt_level_page_mask`: `~((1ULL << shift) - 1)` as a 64-bit
complement. -/
def vtd_slpt_level_page_mask (level : Nat) : Nat :=
  u64Max ^^^ ((1 <<< vtd_slpt_level_shift level) - 1)

/-- Embeds `vtd_iova_level_offset`: the 9-bit table index of `iova` at a
given level. -/
def vtd_iova_level_offset (iova level : Nat) : Nat :=
  (iova >>> vtd_slpt_level_shift level) &&& ((1 <<< VTD_SL_LEVEL_BITS) - 1)

/-- Embeds `vtd_get_slpte_addr`: the frame bits of a second-stage entry. -/
def vtd_get_slpte_addr (slpte aw : Nat) : Nat :=
  slpte &&& VTD_SL_PT_BASE_ADDR_MASK aw

/-- Embeds `vtd_is_last_slpte`: an entry is terminal at the lowest level or
when its page-size bit is set. -/
def vtd_is_last_slpte (slpte level : Nat) : Bool :=
  level == VTD_SL_PT_LEVEL || (slpte &&& VTD_SL_PT_PAGE_SIZE_MASK != 0)

/-- Embeds `vtd_get_slpte`: reads the 64-bit entry `base_addr[index]`,
yielding the all-ones sentinel when the read fails. -/
def vtd_get_slpte (mem : GuestMem) (base_addr index : Nat) : Nat :=
  match mem (base_addr + index * 8) with
  | none => u64Max
  | some v => v &&& u64Max

/-- The two precomputed reserved-bit mask tables `vtd_spte_rsvd` and
`vtd_spte_rsvd_large`.  They are filled in `vtd_init` from header macros that
are outside the sources at hand, so they are carried as parameters. -/
structure RsvdMasks where
  rsvd : Nat → Nat
  rsvdLarge : Nat → Nat

/-- Embeds `vtd_slpte_nonzero_rsvd`: picks the large-page mask for a
page-size entry at levels 2 or 3, the normal mask otherwise, and tests the
entry against it. -/
def vtd_slpte_nonzero_rsvd (m : RsvdMasks) (slpte level : Nat) : Bool :=
  if (level == VTD_SL_PD_LEVEL || level == VTD_SL_PDP_LEVEL) &&
      (slpte &&& VTD_SL_PT_PAGE_SIZE_MASK != 0) then
    slpte &&& m.rsvdLarge level != 0
  else
    slpte &&& m.rsvd level != 0

/-- A context entry, as the two 64-bit halves `lo` and `hi`
(`VTDContextEntry` in the source, legacy layout). -/
structure VTDContextEntry where
  lo : Nat
  hi : Nat
  deriving DecidableEq, Repr

/-- Embeds `vtd_ce_get_level`: `2 + (ce->hi & VTD_CONTEXT_ENTRY_AW)`. -/
def vtd_ce_get_level (ce : VTDContextEntry) : Nat :=
  2 + (ce.hi &&& VTD_CONTEXT_ENTRY_AW)

/-- Embeds `vtd_ce_get_agaw`: `30 + (ce->hi & VTD_CONTEXT_ENTRY_AW) * 9`. -/
def vtd_ce_get_agaw (ce : VTDContextEntry) : Nat :=
  30 + (ce.hi &&& VTD_CONTEXT_ENTRY_AW) * 9

/-- Embeds `vtd_ce_get_slpt_base`. -/
def vtd_ce_get_slpt_base (ce : VTDContextEntry) : Nat :=
  ce.lo &&& VTD_CONTEXT_ENTRY_SLPTPTR

/-- Embeds `vtd_iova_limit` in the non-scalable path:
`1ULL << MIN(ce_agaw, aw)`. -/
def vtd_iova_limit (ce : VTDContextEntry) (aw : Nat) : Nat :=
  1 <<< min (vtd_ce_get_agaw ce) aw

/-- Embeds `vtd_iova_range_check` in the non-scalable path:
`!(iova & ~(limit - 1))` over 64-bit values. -/
def vtd_iova_range_check (iova : Nat) (ce : VTDContextEntry) (aw : Nat) : Bool :=
  iova &&& (u64Max ^^^ (vtd_iova_limit ce aw - 1)) == 0

/-- Embeds the `while (true)` walk loop of `vtd_iova_to_slpte`, recursing on
the level (the source decrements `level` each iteration and every chain ends
at level 1 at the latest, so the level is a structural bound; the level-0
case is unreachable from a level >= 1 start).  The two `Bool` accumulators
are the `reads`/`writes` out-parameters. -/
def vtd_slpte_walk (mem : GuestMem) (m : RsvdMasks) (isWrite : Bool)
    (topLevel aw iova : Nat) :
    Nat → Nat → Bool → Bool → Except VTDFaultReason (Nat × Nat × Bool × Bool)
  | _addr, 0, _reads, _writes => Except.error VTDFaultReason.pagingEntryInv
  | addr, l + 1, reads, writes =>
    let level := l + 1
    let offset := vtd_iova_level_offset iova level
    let slpte := vtd_get_slpte mem addr offset
    if slpte == u64Max then
      if level == topLevel then Except.error VTDFaultReason.contextEntryInv
      else Except.error VTDFaultReason.pagingEntryInv
    else
      let reads1 := reads && (slpte &&& VTD_SL_R != 0)
      let writes1 := writes && (slpte &&& VTD_SL_W != 0)
      let access_right_check := if isWrite then VTD_SL_W else VTD_SL_R
      if slpte &&& access_right_check == 0 then
        Except.error (if isWrite then VTDFaultReason.writeFault
                      else VTDFaultReason.readFault)
      else if vtd_slpte_nonzero_rsvd m slpte level then
        Except.error VTDFaultReason.pagingEntryRsvd
      else if vtd_is_last_slpte slpte level then
        Except.ok (slpte, level, reads1, writes1)
      else
        vtd_slpte_walk mem m isWrite topLevel aw iova
          (vtd_get_slpte_addr slpte aw) l reads1 writes1

/-- Embeds `vtd_iova_to_slpte` in the non-scalable path (base, level and
address width taken from the context entry, as `vtd_get_iova_pgtbl_base`,
`vtd_get_iova_level` and `vtd_get_iova_agaw` do when `root_scalable` is
false).  `scalableMode` is the register-driven `s->scalable_mode` flag that
selects the interrupt-range fault code.  The `xlat + size - 1` sum is taken
modulo `2^64` exactly as 64-bit C arithmetic does. -/
def vtd_iova_to_slpte (mem : GuestMem) (m : RsvdMasks) (scalableMode : Bool)
    (ce : VTDContextEntry) (iova : Nat) (isWrite : Bool) (aw : Nat) :
    Except VTDFaultReason (Nat × Nat × Bool × Bool) :=
  let addr := vtd_ce_get_slpt_base ce
  let level := vtd_ce_get_level ce
  if !vtd_iova_range_check iova ce aw then
    Except.error VTDFaultReason.addrBeyondMGAW
  else
    match vtd_slpte_walk mem m isWrite level aw iova addr level true true with
    | Except.error e => Except.error e
    | Except.ok (slpte, lvl, reads, writes) =>
      let xlat := vtd_get_slpte_addr slpte aw
      let size := (u64Max ^^^ vtd_slpt_level_page_mask lvl) + 1
      if xlat > VTD_INTERRUPT_ADDR_LAST ||
          (xlat + size - 1) % 2 ^ 64 < VTD_INTERRUPT_ADDR_FIRST then
        Except.ok (slpte, lvl, reads, writes)
      else
        Except.error (if scalableMode then VTDFaultReason.smInterruptAddr
                      else VTDFaultReason.interruptAddr)

/-! ### First-stage (guest-virtual) paging walk -/

/-- Modelled from the spec: each first-stage table level indexes with 9 bits
(`VTD_FL_LEVEL_BITS`). -/
def VTD_FL_LEVEL_BITS : Nat := 9

/-- Modelled from the spec: the leaf first-stage level is 1
(`VTD_FL_PT_LEVEL`). -/
def VTD_FL_PT_LEVEL : Nat := 1

/-- Modelled from the spec: the first-stage page-size bit, bit 7
(`VTD_FL_PT_PAGE_SIZE_MASK`). -/
def VTD_FL_PT_PAGE_SIZE_MASK : Nat := 1 <<< 7

/-- Modelled from the spec: the explicit writable bit of a first-stage
entry, bit 1 (`VTD_FL_RW_MASK`); read permission is implicit in presence. -/
def VTD_FL_RW_MASK : Nat := 1 <<< 1

/-- Modelled from the spec: `VTD_FL_PT_BASE_ADDR_MASK(aw)`, the frame bits
of a first-stage entry. -/
def VTD_FL_PT_BASE_ADDR_MASK (aw : Nat) : Nat :=
  VTD_PAGE_MASK_4K &&& ((1 <<< aw) - 1)

/-- Embeds `vtd_flpt_level_shift`. -/
def vtd_flpt_level_shift (level : Nat) : Nat :=
  VTD_PAGE_SHIFT_4K + (level - 1) * VTD_FL_LEVEL_BITS

/-- Embeds `vtd_flpt_level_page_mask`. -/
def vtd_flpt_level_page_mask (level : Nat) : Nat :=
  u64Max ^^^ ((1 <<< vtd_flpt_level_shift level) - 1)

/-- Embeds `vtd_iova_fl_level_offset`. -/
def vtd_iova_fl_level_offset (iova level : Nat) : Nat :=
  (iova >>> vtd_flpt_level_shift level) &&& ((1 <<< VTD_FL_LEVEL_BITS) - 1)

/-- Embeds `vtd_get_flpte`: reads `base_addr[index]`, all-ones on a failed
read. -/
def vtd_get_flpte (mem : GuestMem) (base_addr index : Nat) : Nat :=
  match mem (base_addr + index * 8) with
  | none => u64Max
  | some v => v &&& u64Max

/-- Embeds `vtd_flpte_present`: bit 0 of the entry. -/
def vtd_flpte_present (flpte : Nat) : Bool :=
  flpte &&& 1 != 0

/-- Embeds `vtd_is_last_flpte`. -/
def vtd_is_last_flpte (flpte level : Nat) : Bool :=
  level == VTD_FL_PT_LEVEL || (flpte &&& VTD_FL_PT_PAGE_SIZE_MASK != 0)

/-- Embeds `vtd_get_flpte_addr`. -/
def vtd_get_flpte_addr (flpte aw : Nat) : Nat :=
  flpte &&& VTD_FL_PT_BASE_ADDR_MASK aw

/-- Embeds the `while (true)` loop of `vtd_iova_to_flpte`, recursing on the
level as in `vtd_slpte_walk`.  `topLevel` is `VTD_PE_GET_LEVEL(pe)`, used to
pick the fault code on a failed top-level read. -/
def vtd_flpte_walk (mem : GuestMem) (isWrite : Bool) (topLevel aw iova : Nat) :
    Nat → Nat → Bool → Bool → Except VTDFaultReason (Nat × Nat × Bool × Bool)
  | _addr, 0, _reads, _writes => Except.error VTDFaultReason.pagingEntryInv
  | addr, l + 1, _reads, writes =>
    let level := l + 1
    let flpte := vtd_get_flpte mem addr (vtd_iova_fl_level_offset iova level)
    if flpte == u64Max then
      if level == topLevel then Except.error VTDFaultReason.contextEntryInv
      else Except.error VTDFaultReason.pagingEntryInv
    else if !vtd_flpte_present flpte then
      Except.error VTDFaultReason.pagingEntryInv
    else
      let reads1 := true
      let writes1 := writes && (flpte &&& VTD_FL_RW_MASK != 0)
      if isWrite && (flpte &&& VTD_FL_RW_MASK == 0) then
        Except.error VTDFaultReason.writeFault
      else if vtd_is_last_flpte flpte level then
        Except.ok (flpte, level, reads1, writes1)
      else
        vtd_flpte_walk mem isWrite topLevel aw iova
          (vtd_get_flpte_addr flpte aw) l reads1 writes1

/-- Embeds `vtd_iova_to_flpte` with the paging root and start level taken
from the process (PASID) entry, which the caller resolves; `reads` and
`writes` start as `true` exactly as in `vtd_do_iommu_fl_translate`. -/
def vtd_iova_to_flpte (mem : GuestMem) (base topLevel : Nat) (iova : Nat)
    (isWrite : Bool) (aw : Nat) :
    Except VTDFaultReason (Nat × Nat × Bool × Bool) :=
  vtd_flpte_walk mem isWrite topLevel aw iova base topLevel true true

/-! ### The leaf translation cache (IOTLB) -/

/-- Modelled from the spec: the fixed hard cap of the leaf translation
cache, `VTD_IOTLB_MAX_SIZE` in the header (1024 entries). -/
def VTD_IOTLB_MAX_SIZE : Nat := 1024

/-- The composite hash key `struct vtd_iotlb_key`. -/
structure vtd_iotlb_key where
  gfn : Nat
  sid : Nat
  level : Nat
  pasid : Nat
  deriving DecidableEq, Repr

/-- A cached walk result, `VTDIOTLBEntry` in the source.  The access flags
are kept as the IOMMU permission bit pair produced by
`IOMMU_ACCESS_FLAG(reads, writes)`. -/
structure VTDIOTLBEntry where
  gfn : Nat
  domain_id : Nat
  pte : Nat
  access_flags : Nat
  mask : Nat
  pasid : Nat
  deriving DecidableEq, Repr

/-- The IOTLB hash table, modelled as an association list whose keys are
kept distinct (the hash table holds at most one entry per key). -/
def Iotlb := List (vtd_iotlb_key × VTDIOTLBEntry)

/-- Models `g_hash_table_lookup` on the IOTLB. -/
def iotlb_find (tlb : Iotlb) (k : vtd_iotlb_key) : Option VTDIOTLBEntry :=
  (tlb.find? (fun p => p.1 == k)).map (fun p => p.2)

/-- Models `g_hash_table_replace` on the IOTLB: any entry with the same key
is replaced. -/
def iotlb_replace (tlb : Iotlb) (k : vtd_iotlb_key) (e : VTDIOTLBEntry) :
    Iotlb :=
  (k, e) :: tlb.filter (fun p => !(p.1 == k))

/-- Embeds `vtd_get_iotlb_gfn`. -/
def vtd_get_iotlb_gfn (addr level : Nat) : Nat :=
  (addr &&& vtd_slpt_level_page_mask level) >>> VTD_PAGE_SHIFT_4K

/-- Embeds `vtd_lookup_iotlb`: probes the levels from `VTD_SL_PT_LEVEL`
(leaf) up to but excluding `VTD_SL_PML4_LEVEL`, first match wins. -/
def vtd_lookup_iotlb (tlb : Iotlb) (source_id pasid addr : Nat) :
    Option VTDIOTLBEntry :=
  (List.range' VTD_SL_PT_LEVEL (VTD_SL_PML4_LEVEL - VTD_SL_PT_LEVEL)).findSome?
    (fun level =>
      iotlb_find tlb ⟨vtd_get_iotlb_gfn addr level, source_id, level, pasid⟩)

/-- Embeds `vtd_reset_iotlb_locked`: `g_hash_table_remove_all`. -/
def vtd_reset_iotlb_locked : Iotlb := []

/-- Embeds `vtd_update_iotlb`: when the cache is at or above the cap the
whole cache is reset first, then the new entry is stored under its composite
key. -/
def vtd_update_iotlb (tlb : Iotlb)
    (source_id domain_id addr slpte access_flags level pasid : Nat) : Iotlb :=
  let gfn := vtd_get_iotlb_gfn addr level
  let tlb1 := if VTD_IOTLB_MAX_SIZE ≤ tlb.length then vtd_reset_iotlb_locked
              else tlb
  iotlb_replace tlb1 ⟨gfn, source_id, level, pasid⟩
    ⟨gfn, domain_id, slpte, access_flags, vtd_slpt_level_page_mask level, pasid⟩

/-! ### The context cache and its generation counter -/

/-- Modelled from the spec: `VTD_CONTEXT_CACHE_GEN_MAX`, the wrap point of
the 32-bit generation counter (the largest `uint32_t` value). -/
def VTD_CONTEXT_CACHE_GEN_MAX : Nat := 2 ^ 32 - 1

/-- The state relevant to the context-cache generation protocol: the global
generation `s->context_cache_gen` together with, for every device address
space (indexed abstractly by a `Nat`), the stored generation and cached
context entry of its `VTDContextCacheEntry`. -/
structure CCState where
  context_cache_gen : Nat
  asGen : Nat → Nat
  asCe : Nat → VTDContextEntry

/-- Embeds `vtd_reset_context_cache_locked`: all stored generations become 0
and the global generation becomes 1. -/
def vtd_reset_context_cache_locked (st : CCState) : CCState :=
  { st with asGen := fun _ => 0, context_cache_gen := 1 }

/-- Embeds the generation bump of `vtd_context_global_invalidate`: a 32-bit
increment of `s->context_cache_gen`, followed by a full reset when the
counter reaches `VTD_CONTEXT_CACHE_GEN_MAX`. -/
def vtd_context_global_invalidate (st : CCState) : CCState :=
  let g := (st.context_cache_gen + 1) % 2 ^ 32
  let st1 := { st with context_cache_gen := g }
  if g == VTD_CONTEXT_CACHE_GEN_MAX then vtd_reset_context_cache_locked st1
  else st1

/-- The context-entry fetch step of `vtd_do_iommu_translate` for address
space `a`: the cached entry is used exactly when the stored generation
equals the global one; otherwise `fetched` (the entry freshly read from
guest memory by `vtd_dev_to_context_entry`) is used and cached, and the
stored generation is refreshed.  The returned flag records which branch was
taken. -/
def vtd_cc_branch (st : CCState) (a : Nat) (fetched : VTDContextEntry) :
    Bool × VTDContextEntry × CCState :=
  if st.asGen a == st.context_cache_gen then
    (true, st.asCe a, st)
  else
    (false, fetched,
      { st with asCe := Function.update st.asCe a fetched,
                asGen := Function.update st.asGen a st.context_cache_gen })

/-! ### The invalidation queue -/

/-- The invalidation-queue state: head and tail indices into the guest
circular buffer, the queue size, the architectural head register
(`DMAR_IQH_REG`, stored as a plain index), and the queue-error flag
(`VTD_FSTS_IQE` in `DMAR_FSTS_REG`). -/
structure IQState where
  iq_head : Nat
  iq_tail : Nat
  iq_size : Nat
  iqh_reg : Nat
  iqe : Bool
  deriving DecidableEq, Repr

/-- Embeds `vtd_process_inv_desc` with the descriptor fetch and the
type-dispatched processing body abstracted into the oracle `ok` (indexed by
the head position): on success the head advances, wrapping to 0 at
`iq_size`; on any failure `none` is returned and the head is untouched. -/
def vtd_process_inv_desc (ok : Nat → Bool) (st : IQState) : Option IQState :=
  if ok st.iq_head then
    let h := st.iq_head + 1
    some { st with iq_head := if h == st.iq_size then 0 else h }
  else
    none

/-- Embeds the drain loop of `vtd_fetch_inv_desc`.  The C loop is bounded
because the head advances modulo the queue size on every successful step and
stops at the tail or at the first failure; `fuel` makes that bound explicit
(the caller passes `iq_size`, which suffices).  After each successful
descriptor the head is persisted to the head register
(`vtd_set_quad_raw(s, DMAR_IQH_REG, ...)`); on a failure
`vtd_handle_inv_queue_error` raises the queue-error condition. -/
def vtd_fetch_loop (ok : Nat → Bool) : Nat → IQState → IQState
  | 0, st => st
  | fuel + 1, st =>
    if st.iq_head == st.iq_tail then st
    else
      match vtd_process_inv_desc ok st with
      | none => { st with iqe := true }
      | some st1 => vtd_fetch_loop ok fuel { st1 with iqh_reg := st1.iq_head }

/-- Embeds `vtd_fetch_inv_desc`: an out-of-range tail raises the queue
error; otherwise descriptors are drained from head toward tail. -/
def vtd_fetch_inv_desc (ok : Nat → Bool) (st : IQState) : IQState :=
  if st.iq_size ≤ st.iq_tail then { st with iqe := true }
  else vtd_fetch_loop ok st.iq_size st

/-- Embeds `vtd_handle_iqt_write`: the tail is latched, and descriptors are
drained only when queueing is enabled and the queue-error flag is clear. -/
def vtd_handle_iqt_write (ok : Nat → Bool) (qiEnabled : Bool) (newTail : Nat)
    (st : IQState) : IQState :=
  let st1 := { st with iq_tail := newTail }
  if qiEnabled && !st1.iqe then vtd_fetch_inv_desc ok st1 else st1

/-! ### The fault-recording ring -/

/-- Modelled from the spec: the fault bit `VTD_FRCD_F`, bit 127 of a fault
recording register, i.e. bit 63 of its high half. -/
def VTD_FRCD_F : Nat := 1 <<< 63

/-- Modelled from the spec: `VTD_FRCD_SID_MASK`, the source-id field in the
low 16 bits of the high half of a fault recording register. -/
def VTD_FRCD_SID_MASK : Nat := 0xffff

/-- The fault-reporting state: the high and low halves of the
`DMAR_FRCD_REG` ring (indexed 0 .. N-1), the `next_frcd_reg` cursor, the
relevant `DMAR_FSTS_REG` bits (overflow `PFO`, pending `PPF`, queue error
`IQE`), the fault-interrupt mask and pending bits of `DMAR_FECTL_REG`, and a
counter of generated fault-interrupt edges (each MSI sent by
`vtd_generate_interrupt`). -/
structure FaultState where
  frcdHi : Nat → Nat
  frcdLo : Nat → Nat
  next_frcd_reg : Nat
  pfo : Bool
  ppf : Bool
  iqe : Bool
  fri : Nat
  im : Bool
  ip : Bool
  edges : Nat

/-- Embeds `vtd_is_frcd_set`: the F bit of slot `index`. -/
def vtd_is_frcd_set (st : FaultState) (index : Nat) : Bool :=
  st.frcdHi index &&& VTD_FRCD_F != 0

/-- Embeds `vtd_update_fsts_ppf` for a ring of `n` slots: `PPF` becomes the
OR of all F bits. -/
def vtd_update_fsts_ppf (n : Nat) (st : FaultState) : FaultState :=
  { st with ppf := (List.range n).any (fun i => vtd_is_frcd_set st i) }

/-- Embeds `vtd_set_frcd_and_update_ppf`: sets the F bit of slot `index`
and recomputes `PPF`. -/
def vtd_set_frcd_and_update_ppf (n : Nat) (st : FaultState) (index : Nat) :
    FaultState :=
  vtd_update_fsts_ppf n
    { st with frcdHi :=
        Function.update st.frcdHi index (st.frcdHi index ||| VTD_FRCD_F) }

/-- Embeds `vtd_record_frcd`: writes both halves of slot `index`, leaving
the F bit to be set later. -/
def vtd_record_frcd (st : FaultState) (index hi lo : Nat) : FaultState :=
  { st with frcdHi := Function.update st.frcdHi index hi,
            frcdLo := Function.update st.frcdLo index lo }

/-- Embeds `vtd_try_collapse_fault` for a ring of `n` slots: true when some
slot has its F bit set and its source-id field equal to `source_id`. -/
def vtd_try_collapse_fault (n : Nat) (st : FaultState) (source_id : Nat) :
    Bool :=
  (List.range n).any
    (fun i => (st.frcdHi i &&& VTD_FRCD_F != 0) &&
              (st.frcdHi i &&& VTD_FRCD_SID_MASK == source_id))

/-- Embeds `vtd_generate_fault_event`: with a prior interrupt condition
(`PPF`, `PFO` or `IQE` set in the `pre`-update `FSTS` snapshot) nothing
happens; otherwise `IP` is set and, unless the interrupt mask `IM` is set,
an MSI edge is generated and `IP` cleared again. -/
def vtd_generate_fault_event (st : FaultState)
    (prePpf prePfo preIqe : Bool) : FaultState :=
  if prePpf || prePfo || preIqe then st
  else
    let st1 := { st with ip := true }
    if st1.im then st1
    else { st1 with edges := st1.edges + 1, ip := false }

/-- Embeds `vtd_report_frcd_fault` for a ring of `n` slots: drop on
overflow already set; drop when a present slot with the same source-id
exists (compression); set the overflow flag and drop when the next slot is
still in use; otherwise record the fault in the next slot, set its F bit,
update `PPF` and `FRI`, advance the cursor modulo `n`, and generate the
fault event only when no fault was pending before. -/
def vtd_report_frcd_fault (n : Nat) (st : FaultState)
    (source_id hi lo : Nat) : FaultState :=
  if st.pfo then st
  else if vtd_try_collapse_fault n st source_id then st
  else if vtd_is_frcd_set st st.next_frcd_reg then { st with pfo := true }
  else
    let st1 := vtd_record_frcd st st.next_frcd_reg hi lo
    if st.ppf then
      let st2 := vtd_set_frcd_and_update_ppf n st1 st1.next_frcd_reg
      { st2 with next_frcd_reg :=
          if st2.next_frcd_reg + 1 == n then 0 else st2.next_frcd_reg + 1 }
    else
      let st2 := { st1 with fri := st1.next_frcd_reg }
      let st3 := vtd_set_frcd_and_update_ppf n st2 st2.next_frcd_reg
      let st4 := { st3 with next_frcd_reg :=
          if st3.next_frcd_reg + 1 == n then 0 else st3.next_frcd_reg + 1 }
      vtd_generate_fault_event st4 st.ppf st.pfo st.iqe

/-! ### The PASID-scoped leaf translation cache -/

/-- Modelled from the spec: the hard cap of the PASID-scoped translation
cache, `VTD_PASID_IOTLB_MAX_SIZE` in the header. -/
def VTD_PASID_IOTLB_MAX_SIZE : Nat := 1024

/-- The fields `vtd_get_piotlb_key` encodes into its string key. -/
structure vtd_piotlb_key where
  gfn : Nat
  pasid : Nat
  level : Nat
  sid : Nat
  deriving DecidableEq, Repr

/-- The PASID-scoped cache, an association list with distinct keys. -/
def PIotlb := List (vtd_piotlb_key × VTDIOTLBEntry)

/-- Models `g_hash_table_lookup` on the PASID-scoped cache. -/
def piotlb_find (tlb : PIotlb) (k : vtd_piotlb_key) : Option VTDIOTLBEntry :=
  (tlb.find? (fun p => p.1 == k)).map (fun p => p.2)

/-- Models `g_hash_table_replace` on the PASID-scoped cache. -/
def piotlb_replace (tlb : PIotlb) (k : vtd_piotlb_key) (e : VTDIOTLBEntry) :
    PIotlb :=
  (k, e) :: tlb.filter (fun p => !(p.1 == k))

/-- Embeds `vtd_get_piotlb_gfn`. -/
def vtd_get_piotlb_gfn (addr level : Nat) : Nat :=
  (addr &&& vtd_flpt_level_page_mask level) >>> VTD_PAGE_SHIFT_4K

/-- Embeds `vtd_lookup_piotlb`: the same leaf-upward level probe as
`vtd_lookup_iotlb`. -/
def vtd_lookup_piotlb (tlb : PIotlb) (pasid addr source_id : Nat) :
    Option VTDIOTLBEntry :=
  (List.range' VTD_SL_PT_LEVEL (VTD_SL_PML4_LEVEL - VTD_SL_PT_LEVEL)).findSome?
    (fun level =>
      piotlb_find tlb ⟨vtd_get_piotlb_gfn addr level, pasid, level, source_id⟩)

/-- Embeds `vtd_update_piotlb`, including the full reset at the cap. -/
def vtd_update_piotlb (tlb : PIotlb)
    (pasid domain_id addr flpte access_flags level source_id : Nat) : PIotlb :=
  let gfn := vtd_get_piotlb_gfn addr level
  let tlb1 := if VTD_PASID_IOTLB_MAX_SIZE ≤ tlb.length then [] else tlb
  piotlb_replace tlb1 ⟨gfn, pasid, level, source_id⟩
    ⟨gfn, domain_id, flpte, access_flags, vtd_flpt_level_page_mask level, pasid⟩

/-! ### The translate entry points -/

/-- Modelled from the spec: `PCI_NO_PASID` (the largest `uint32_t`), the
marker for an address space without an explicit PASID. -/
def PCI_NO_PASID : Nat := 2 ^ 32 - 1

/-- The result record `IOMMUTLBEntry` as filled by the translate entry
points; `perm` is the IOMMU permission bit pair (`IOMMU_NONE` = 0,
read = bit 0, write = bit 1). -/
structure IOMMUTLBEntryM where
  iova : Nat
  translated_addr : Nat
  addr_mask : Nat
  perm : Nat
  deriving DecidableEq, Repr

/-- Embeds `IOMMU_ACCESS_FLAG`. -/
def IOMMU_ACCESS_FLAG (r w : Bool) : Nat :=
  (if r then 1 else 0) ||| (if w then 2 else 0)

/-- The zero-filled result written by the `error:` paths of the translate
entry points: no iova, no translated address, no mask, no permission. -/
def zeroedTLBEntry : IOMMUTLBEntryM := ⟨0, 0, 0, 0⟩

/-- The result assembled at the `out:` label of `vtd_do_iommu_translate`
from a paging entry, access flags and page mask. -/
def vtd_translate_out_entry (addr pte af pmask aw : Nat) : IOMMUTLBEntryM :=
  ⟨addr &&& pmask, vtd_get_slpte_addr pte aw &&& pmask, u64Max ^^^ pmask, af⟩

/-- The identity 4 KiB result returned for pass-through context entries
(`IOMMU_RW` permission). -/
def vtd_translate_pt_entry (addr : Nat) : IOMMUTLBEntryM :=
  ⟨addr &&& VTD_PAGE_MASK_4K, addr &&& VTD_PAGE_MASK_4K,
   u64Max ^^^ VTD_PAGE_MASK_4K, 3⟩

/-- The result assembled at the `out:` label of
`vtd_do_iommu_fl_translate`. -/
def vtd_fl_translate_out_entry (addr pte af pmask aw : Nat) :
    IOMMUTLBEntryM :=
  ⟨addr &&& pmask, vtd_get_flpte_addr pte aw &&& pmask, u64Max ^^^ pmask, af⟩

/-- The mutable state touched by `vtd_do_iommu_translate`: the IOTLB and
the context-cache entry of the translating address space (stored generation
plus cached entry), together with the global generation. -/
structure SLTranslateState where
  iotlb : Iotlb
  cc_gen : Nat
  cc_entry : VTDContextEntry
  global_gen : Nat

/-- Embeds the control skeleton of `vtd_do_iommu_translate`.  The
collaborator operations that only produce data for this function are passed
as oracles: `devToCe` is the outcome of `vtd_dev_to_context_entry`,
`pasidFpdOf` of `vtd_ce_get_pasid_fpd`, `rid2pasidOf` is
`VTD_CE_GET_RID2PASID`, `ptEnabled` is `vtd_dev_pt_enabled`, `walkOf` is the
outcome of `vtd_iova_to_slpte` and `domainOf` of `vtd_get_domain_id`.  The
fault-recording side effects are modelled separately (`vtd_report_frcd_fault`)
and omitted here.  Every `error:` path returns `false` with the zeroed
result entry. -/
def vtd_do_iommu_translate (rootScalable : Bool)
    (devToCe : Except VTDFaultReason VTDContextEntry)
    (pasidFpdOf : VTDContextEntry → Nat → Except VTDFaultReason Bool)
    (rid2pasidOf : VTDContextEntry → Nat)
    (ptEnabled : VTDContextEntry → Nat → Bool)
    (walkOf : VTDContextEntry → Nat → Except VTDFaultReason (Nat × Nat × Bool × Bool))
    (domainOf : VTDContextEntry → Nat → Nat)
    (awBits : Nat) (st : SLTranslateState) (sourceId pasidArg addr : Nat) :
    Bool × IOMMUTLBEntryM × SLTranslateState :=
  let rid2pasid := (pasidArg == PCI_NO_PASID) && rootScalable
  let walkStage := fun (st1 : SLTranslateState) (ce : VTDContextEntry)
      (pasid : Nat) =>
    match walkOf ce pasid with
    | Except.error _ => (false, zeroedTLBEntry, st1)
    | Except.ok (slpte, level, reads, writes) =>
      let pmask := vtd_slpt_level_page_mask level
      let af := IOMMU_ACCESS_FLAG reads writes
      let tlb1 := vtd_update_iotlb st1.iotlb sourceId (domainOf ce pasid)
        addr slpte af level pasid
      (true, vtd_translate_out_entry addr slpte af pmask awBits,
       { st1 with iotlb := tlb1 })
  let afterCc := fun (st1 : SLTranslateState) (ce : VTDContextEntry) =>
    let pasid := if rid2pasid then rid2pasidOf ce else pasidArg
    if ptEnabled ce pasid then (true, vtd_translate_pt_entry addr, st1)
    else if rid2pasid then
      match vtd_lookup_iotlb st1.iotlb sourceId pasid addr with
      | some ie =>
        (true, vtd_translate_out_entry addr ie.pte ie.access_flags ie.mask
           awBits, st1)
      | none => walkStage st1 ce pasid
    else walkStage st1 ce pasid
  let ccStage :=
    if st.cc_gen == st.global_gen then
      let ce := st.cc_entry
      let fpd0 := ce.lo &&& VTD_CONTEXT_ENTRY_FPD != 0
      if !fpd0 && rootScalable then
        match pasidFpdOf ce pasidArg with
        | Except.error _ => (false, zeroedTLBEntry, st)
        | Except.ok _ => afterCc st ce
      else afterCc st ce
    else
      match devToCe with
      | Except.error _ => (false, zeroedTLBEntry, st)
      | Except.ok ce =>
        let fpd0 := ce.lo &&& VTD_CONTEXT_ENTRY_FPD != 0
        let fpdCheck := if !fpd0 && rootScalable then pasidFpdOf ce pasidArg
                        else Except.ok fpd0
        match fpdCheck with
        | Except.error _ => (false, zeroedTLBEntry, st)
        | Except.ok _ =>
          afterCc { st with cc_entry := ce, cc_gen := st.global_gen } ce
  if !rid2pasid then
    match vtd_lookup_iotlb st.iotlb sourceId pasidArg addr with
    | some ie =>
      (true, vtd_translate_out_entry addr ie.pte ie.access_flags ie.mask
         awBits, st)
    | none => ccStage
  else ccStage

/-- A process (PASID) entry, kept opaque: the first-stage entry point only
passes it to collaborator oracles. -/
structure VTDPASIDEntry where
  val0 : Nat
  deriving DecidableEq, Repr

/-- Embeds the control skeleton of `vtd_do_iommu_fl_translate`, with the
collaborators as oracles: `devToCe` for `vtd_dev_to_context_entry`,
`rid2pasidRes` for `vtd_dev_get_rid2pasid` (`none` = failure), `peOf` for
`vtd_ce_get_rid2pasid_entry`, `peIsPt` for the
`VTD_PE_GET_TYPE == VTD_SM_PASID_ENTRY_PT` test, `flWalkOf` for
`vtd_iova_to_flpte` and `domainOf` for `vtd_pe_get_domain_id`.  The first
two failure paths return `false` without touching the caller-provided
result entry `entryIn` (the public caller `vtd_iommu_translate` passes a
zero-initialised record); the later `error:` path zeroes it. -/
def vtd_do_iommu_fl_translate
    (devToCe : Except VTDFaultReason VTDContextEntry)
    (rid2pasidRes : Option Nat)
    (peOf : VTDContextEntry → Except VTDFaultReason VTDPASIDEntry)
    (peIsPt : VTDPASIDEntry → Bool)
    (flWalkOf : VTDPASIDEntry → Except VTDFaultReason (Nat × Nat × Bool × Bool))
    (domainOf : VTDPASIDEntry → Nat)
    (awBits : Nat) (ptlb : PIotlb) (sourceId addr : Nat)
    (entryIn : IOMMUTLBEntryM) :
    Bool × IOMMUTLBEntryM × PIotlb :=
  match devToCe with
  | Except.error _ => (false, entryIn, ptlb)
  | Except.ok ce =>
    match rid2pasidRes with
    | none => (false, entryIn, ptlb)
    | some pasid =>
      match vtd_lookup_piotlb ptlb pasid addr sourceId with
      | some pe2 =>
        (true, vtd_fl_translate_out_entry addr pe2.pte pe2.access_flags
           pe2.mask awBits, ptlb)
      | none =>
        match peOf ce with
        | Except.error _ => (false, zeroedTLBEntry, ptlb)
        | Except.ok pe =>
          if peIsPt pe then (true, vtd_translate_pt_entry addr, ptlb)
          else
            match flWalkOf pe with
            | Except.error _ => (false, zeroedTLBEntry, ptlb)
            | Except.ok (flpte, level, reads, writes) =>
              let pmask := vtd_flpt_level_page_mask level
              let af := IOMMU_ACCESS_FLAG reads writes
              (true, vtd_fl_translate_out_entry addr flpte af pmask awBits,
               vtd_update_piotlb ptlb pasid (domainOf pe) addr flpte af level
                 sourceId)

/-! ### Walked chains through guest page tables

The claims quantify over page tables that contain a present,
reserved-bit-clean chain for a given IOVA.  The following predicates state
that structure directly on guest memory, mirroring the walk order. -/

/-- The second-stage entry the walk reads at table `addr`, level `level`. -/
def slpteAt (mem : GuestMem) (iova addr level : Nat) : Nat :=
  vtd_get_slpte mem addr (vtd_iova_level_offset iova level)

/-- The first-stage entry the walk reads at table `addr`, level `level`. -/
def flpteAt (mem : GuestMem) (iova addr level : Nat) : Nat :=
  vtd_get_flpte mem addr (vtd_iova_fl_level_offset iova level)

/-- `SLPath mem m aw iova addr level addr2 level2` says that, starting the
second-stage walk for `iova` at table `addr` and `level`, a chain of
readable, reserved-bit-clean, non-terminal entries that grant both read and
write leads down to table `addr2` at `level2`. -/
inductive SLPath (mem : GuestMem) (m : RsvdMasks) (aw iova : Nat) :
    Nat → Nat → Nat → Nat → Prop where
  | refl (addr level : Nat) : SLPath mem m aw iova addr level addr level
  | step (addr level : Nat) {addr2 level2 : Nat}
      (hlv : level ≠ 0)
      (hne : slpteAt mem iova addr level ≠ u64Max)
      (hr : slpteAt mem iova addr level &&& VTD_SL_R ≠ 0)
      (hw : slpteAt mem iova addr level &&& VTD_SL_W ≠ 0)
      (hrsvd : vtd_slpte_nonzero_rsvd m (slpteAt mem iova addr level) level
               = false)
      (hnl : vtd_is_last_slpte (slpteAt mem iova addr level) level = false)
      (hrest : SLPath mem m aw iova
        (vtd_get_slpte_addr (slpteAt mem iova addr level) aw) (level - 1)
        addr2 level2) :
      SLPath mem m aw iova addr level addr2 level2

/-- `FLChain mem aw iova addr level es lf ll` says that the first-stage walk
for `iova` starting at table `addr` and `level` passes exactly the present,
readable entries `es` (top first), ending at the terminal entry `lf` at
level `ll`. -/
inductive FLChain (mem : GuestMem) (aw iova : Nat) :
    Nat → Nat → List Nat → Nat → Nat → Prop where
  | leaf (addr level : Nat) (hlv : level ≠ 0)
      (hne : flpteAt mem iova addr level ≠ u64Max)
      (hp : vtd_flpte_present (flpteAt mem iova addr level) = true)
      (hlast : vtd_is_last_flpte (flpteAt mem iova addr level) level = true) :
      FLChain mem aw iova addr level [flpteAt mem iova addr level]
        (flpteAt mem iova addr level) level
  | node (addr level : Nat) {es : List Nat} {lf ll : Nat} (hlv : level ≠ 0)
      (hne : flpteAt mem iova addr level ≠ u64Max)
      (hp : vtd_flpte_present (flpteAt mem iova addr level) = true)
      (hnl : vtd_is_last_flpte (flpteAt mem iova addr level) level = false)
      (hrest : FLChain mem aw iova
        (vtd_get_flpte_addr (flpteAt mem iova addr level) aw) (level - 1)
        es lf ll) :
      FLChain mem aw iova addr level (flpteAt mem iova addr level :: es) lf ll

/-- `FLPath mem aw iova isWrite addr level addr2 level2` says that the
first-stage walk for `iova` descends from table `addr` at `level` to table
`addr2` at `level2` through present, readable, non-terminal entries that
also carry the writable bit whenever the access is a write. -/
inductive FLPath (mem : GuestMem) (aw iova : Nat) (isWrite : Bool) :
    Nat → Nat → Nat → Nat → Prop where
  | refl (addr level : Nat) : FLPath mem aw iova isWrite addr level addr level
  | step (addr level : Nat) {addr2 level2 : Nat}
      (hlv : level ≠ 0)
      (hne : flpteAt mem iova addr level ≠ u64Max)
      (hp : vtd_flpte_present (flpteAt mem iova addr level) = true)
      (hw : isWrite = true → flpteAt mem iova addr level &&& VTD_FL_RW_MASK ≠ 0)
      (hnl : vtd_is_last_flpte (flpteAt mem iova addr level) level = false)
      (hrest : FLPath mem aw iova isWrite
        (vtd_get_flpte_addr (flpteAt mem iova addr level) aw) (level - 1)
        addr2 level2) :
      FLPath mem aw iova isWrite addr level addr2 level2

/-! ### Concrete page tables used as test inputs -/

/-- Reserved-mask tables with no reserved bits, the simplest legal
instantiation of the precomputed tables for concrete test inputs. -/
def zeroMasks : RsvdMasks := ⟨fun _ => 0, fun _ => 0⟩

/-- A two-level second-stage table for IOVA 0: the level-2 entry at `0x1000`
points to the table at `0x2000`, whose level-1 leaf maps frame `0xFEE00000`
(inside the interrupt window) with read and write permission. -/
def memC1a : GuestMem := fun a =>
  if a = 0x1000 then some 0x2003
  else if a = 0x2000 then some 0xFEE00003
  else none

/-- A two-level second-stage table for IOVA 0: as `memC1a` but the leaf maps
frame `0x5000`, outside the interrupt window. -/
def memC1b : GuestMem := fun a =>
  if a = 0x1000 then some 0x2003
  else if a = 0x2000 then some 0x5003
  else none

/-- A two-level second-stage table for IOVA 0 whose leaf at level 1 carries
a reserved bit (bit 11) in addition to read/write permission. -/
def memC1c : GuestMem := fun a =>
  if a = 0x1000 then some 0x2003
  else if a = 0x2000 then some 0x5803
  else none

/-- A context entry whose paging root is `0x1000` with address-width field
0, i.e. a 2-level (30-bit) table. -/
def ceC1 : VTDContextEntry := ⟨0x1000, 0⟩

/-- A two-level first-stage table for IOVA 0: the level-2 entry at `0x3000`
points to `0x4000`, whose level-1 leaf maps frame `0x6000`, all entries
present and writable. -/
def memC9 : GuestMem := fun a =>
  if a = 0x3000 then some 0x4003
  else if a = 0x4000 then some 0x6003
  else none

/-- As `memC9` but the level-1 leaf is present and read-only (writable bit
clear). -/
def memC9b : GuestMem := fun a =>
  if a = 0x3000 then some 0x4003
  else if a = 0x4000 then some 0x6001
  else none

/-- As `memC9` but the level-1 entry is non-present. -/
def memC9c : GuestMem := fun a =>
  if a = 0x3000 then some 0x4003
  else if a = 0x4000 then some 0x6002
  else none

/-! ## Theorems -/

/-- Distributivity used to reason about masked fields of fault records. -/
theorem land_lor_distrib (a b c : Nat) :
    (a ||| b) &&& c = (a &&& c) ||| (b &&& c) := by
  apply Nat.eq_of_testBit_eq
  intro i
  simp only [Nat.testBit_and, Nat.testBit_or]
  cases a.testBit i <;> cases b.testBit i <;> cases c.testBit i <;> rfl

/-- A page-aligned value plus an in-page offset is their bitwise or. -/
theorem aligned_add_eq_or {H L s : Nat} (hH : H % 2 ^ s = 0)
    (hL : L < 2 ^ s) : H + L = H ||| L := by
  obtain ⟨q, rfl⟩ : ∃ q, H = 2 ^ s * q :=
    ⟨H / 2 ^ s, (Nat.mul_div_cancel' (Nat.dvd_of_mod_eq_zero hH)).symm⟩
  exact Nat.mul_add_lt_is_or hL q

/-- The 64-bit complement of a low-bit mask is disjoint from it. -/
theorem compl_mask_and_low (s : Nat) (hs : s ≤ 64) :
    (u64Max ^^^ (2 ^ s - 1)) &&& (2 ^ s - 1) = 0 := by
  apply Nat.eq_of_testBit_eq
  intro i
  simp only [u64Max, Nat.testBit_xor, Nat.testBit_and,
    Nat.testBit_two_pow_sub_one, Nat.zero_testBit]
  by_cases h : i < s
  · have : i < 64 := lt_of_lt_of_le h hs
    simp [h, this]
  · simp [h]

/-- The level shift of any leaf level at or below the 1 GiB level fits a
64-bit value. -/
theorem slpt_shift_lt_64 {lvl : Nat} (h : lvl ≤ 3) :
    vtd_slpt_level_shift lvl < 64 := by
  unfold vtd_slpt_level_shift VTD_PAGE_SHIFT_4K VTD_SL_LEVEL_BITS
  omega

/-- The page size computed by `vtd_iova_to_slpte` as the two's complement of
the page mask is the power of two of the level shift. -/
theorem slpt_size_eq {lvl : Nat} (h : vtd_slpt_level_shift lvl < 64) :
    (u64Max ^^^ vtd_slpt_level_page_mask lvl) + 1 =
      2 ^ vtd_slpt_level_shift lvl := by
  unfold vtd_slpt_level_page_mask
  rw [Nat.xor_cancel_left, Nat.one_shiftLeft]
  have h1 : 1 ≤ 2 ^ vtd_slpt_level_shift lvl := Nat.one_le_two_pow
  omega

/-- A walked chain of full-permission intermediate entries ending in a
readable, clean, terminal entry makes `vtd_slpte_walk` succeed with the leaf
entry, its level, and the accumulated (here: leaf) permissions. -/
theorem vtd_slpte_walk_path_ok (mem : GuestMem) (m : RsvdMasks)
    (isWrite : Bool) (top aw iova : Nat) :
    ∀ {addr0 lvl0 addr lvl : Nat},
      SLPath mem m aw iova addr0 lvl0 addr lvl →
      lvl ≠ 0 →
      slpteAt mem iova addr lvl ≠ u64Max →
      slpteAt mem iova addr lvl &&&
        (if isWrite then VTD_SL_W else VTD_SL_R) ≠ 0 →
      vtd_slpte_nonzero_rsvd m (slpteAt mem iova addr lvl) lvl = false →
      vtd_is_last_slpte (slpteAt mem iova addr lvl) lvl = true →
      vtd_slpte_walk mem m isWrite top aw iova addr0 lvl0 true true =
        Except.ok (slpteAt mem iova addr lvl, lvl,
          slpteAt mem iova addr lvl &&& VTD_SL_R != 0,
          slpteAt mem iova addr lvl &&& VTD_SL_W != 0) := by
  intro addr0 lvl0 addr lvl hpath
  induction hpath with
  | refl a l =>
    intro hlv hne hacc hrsvd hlast
    obtain ⟨k, rfl⟩ := Nat.exists_eq_succ_of_ne_zero hlv
    have hA : (slpteAt mem iova a (k + 1) == u64Max) = false :=
      beq_eq_false_iff_ne.mpr hne
    have hB : (slpteAt mem iova a (k + 1) &&&
        (if isWrite then VTD_SL_W else VTD_SL_R) == 0) = false :=
      beq_eq_false_iff_ne.mpr hacc
    simp only [slpteAt] at hA hB hrsvd hlast
    simp only [vtd_slpte_walk]
    simp [hA, hB, hrsvd, hlast, slpteAt]
  | step a l hlv hne hr hw hrsvd hnl hrest ih =>
    intro hlv2 hne2 hacc2 hrsvd2 hlast2
    obtain ⟨k, rfl⟩ := Nat.exists_eq_succ_of_ne_zero hlv
    have hA : (slpteAt mem iova a (k + 1) == u64Max) = false :=
      beq_eq_false_iff_ne.mpr hne
    have hB : (slpteAt mem iova a (k + 1) &&&
        (if isWrite then VTD_SL_W else VTD_SL_R) == 0) = false := by
      apply beq_eq_false_iff_ne.mpr
      cases isWrite
      · simpa using hr
      · simpa using hw
    have hr1 : (slpteAt mem iova a (k + 1) &&& VTD_SL_R != 0) = true :=
      bne_iff_ne.mpr hr
    have hw1 : (slpteAt mem iova a (k + 1) &&& VTD_SL_W != 0) = true :=
      bne_iff_ne.mpr hw
    simp only [slpteAt] at hA hB hr1 hw1 hrsvd hnl
    simp only [vtd_slpte_walk]
    simp [hA, hB, hrsvd, hnl, hr1, hw1]
    exact ih hlv2 hne2 hacc2 hrsvd2 hlast2

/-- A walked chain reaching an entry that passes the permission check but
has a nonzero reserved bit makes `vtd_slpte_walk` fail with the
paging-entry-reserved fault. -/
theorem vtd_slpte_walk_path_rsvd (mem : GuestMem) (m : RsvdMasks)
    (isWrite : Bool) (top aw iova : Nat) :
    ∀ {addr0 lvl0 addr lvl : Nat},
      SLPath mem m aw iova addr0 lvl0 addr lvl →
      lvl ≠ 0 →
      slpteAt mem iova addr lvl ≠ u64Max →
      slpteAt mem iova addr lvl &&&
        (if isWrite then VTD_SL_W else VTD_SL_R) ≠ 0 →
      vtd_slpte_nonzero_rsvd m (slpteAt mem iova addr lvl) lvl = true →
      vtd_slpte_walk mem m isWrite top aw iova addr0 lvl0 true true =
        Except.error VTDFaultReason.pagingEntryRsvd := by
  intro addr0 lvl0 addr lvl hpath
  induction hpath with
  | refl a l =>
    intro hlv hne hacc hrsvd
    obtain ⟨k, rfl⟩ := Nat.exists_eq_succ_of_ne_zero hlv
    have hA : (slpteAt mem iova a (k + 1) == u64Max) = false :=
      beq_eq_false_iff_ne.mpr hne
    have hB : (slpteAt mem iova a (k + 1) &&&
        (if isWrite then VTD_SL_W else VTD_SL_R) == 0) = false :=
      beq_eq_false_iff_ne.mpr hacc
    simp only [slpteAt] at hA hB hrsvd
    simp only [vtd_slpte_walk]
    simp [hA, hB, hrsvd]
  | step a l hlv hne hr hw hrsvd hnl hrest ih =>
    intro hlv2 hne2 hacc2 hrsvd2
    obtain ⟨k, rfl⟩ := Nat.exists_eq_succ_of_ne_zero hlv
    have hA : (slpteAt mem iova a (k + 1) == u64Max) = false :=
      beq_eq_false_iff_ne.mpr hne
    have hB : (slpteAt mem iova a (k + 1) &&&
        (if isWrite then VTD_SL_W else VTD_SL_R) == 0) = false := by
      apply beq_eq_false_iff_ne.mpr
      cases isWrite
      · simpa using hr
      · simpa using hw
    have hr1 : (slpteAt mem iova a (k + 1) &&& VTD_SL_R != 0) = true :=
      bne_iff_ne.mpr hr
    have hw1 : (slpteAt mem iova a (k + 1) &&& VTD_SL_W != 0) = true :=
      bne_iff_ne.mpr hw
    simp only [slpteAt] at hA hB hr1 hw1 hrsvd hnl
    simp only [vtd_slpte_walk]
    simp [hA, hB, hrsvd, hnl, hr1, hw1]
    exact ih hlv2 hne2 hacc2 hrsvd2

/-- C1 (amended).  Second-stage walk correctness: for every IOVA that
passes the address-width range check and every requested permission, if the
page table contains a chain of readable, reserved-bit-clean, read+write
intermediate entries down to a terminal entry that grants the requested
permission, is reserved-bit-clean, and whose translated page lies entirely
outside the interrupt window, then `vtd_iova_to_slpte` succeeds, returning
the leaf entry with the permission bits P of the leaf, and the translated
page base combined with the low IOVA bits is the leaf frame bits or-ed with
`iova mod pagesize`; and if instead the chain reaches an entry that grants
the requested permission but has a reserved bit set, the walk fails with
the paging-entry-reserved fault. -/
theorem claim_C1_slpte_walk (mem : GuestMem) (m : RsvdMasks)
    (scalableMode : Bool) (ce : VTDContextEntry) (iova : Nat)
    (isWrite : Bool) (aw : Nat)
    (hrange : vtd_iova_range_check iova ce aw = true)
    (haw : aw ≤ 57) :
    (∀ addr lvl,
      SLPath mem m aw iova (vtd_ce_get_slpt_base ce) (vtd_ce_get_level ce)
        addr lvl →
      lvl ≠ 0 → lvl ≤ 3 →
      slpteAt mem iova addr lvl ≠ u64Max →
      slpteAt mem iova addr lvl &&&
        (if isWrite then VTD_SL_W else VTD_SL_R) ≠ 0 →
      vtd_slpte_nonzero_rsvd m (slpteAt mem iova addr lvl) lvl = false →
      vtd_is_last_slpte (slpteAt mem iova addr lvl) lvl = true →
      (VTD_INTERRUPT_ADDR_LAST <
          vtd_get_slpte_addr (slpteAt mem iova addr lvl) aw ∨
        vtd_get_slpte_addr (slpteAt mem iova addr lvl) aw +
          2 ^ vtd_slpt_level_shift lvl - 1 < VTD_INTERRUPT_ADDR_FIRST) →
      vtd_iova_to_slpte mem m scalableMode ce iova isWrite aw =
        Except.ok (slpteAt mem iova addr lvl, lvl,
          slpteAt mem iova addr lvl &&& VTD_SL_R != 0,
          slpteAt mem iova addr lvl &&& VTD_SL_W != 0) ∧
      (vtd_get_slpte_addr (slpteAt mem iova addr lvl) aw &&&
          vtd_slpt_level_page_mask lvl) +
        (iova &&& (u64Max ^^^ vtd_slpt_level_page_mask lvl)) =
      ((vtd_get_slpte_addr (slpteAt mem iova addr lvl) aw &&&
          vtd_slpt_level_page_mask lvl) |||
        iova % 2 ^ vtd_slpt_level_shift lvl)) ∧
    (∀ addr lvl,
      SLPath mem m aw iova (vtd_ce_get_slpt_base ce) (vtd_ce_get_level ce)
        addr lvl →
      lvl ≠ 0 →
      slpteAt mem iova addr lvl ≠ u64Max →
      slpteAt mem iova addr lvl &&&
        (if isWrite then VTD_SL_W else VTD_SL_R) ≠ 0 →
      vtd_slpte_nonzero_rsvd m (slpteAt mem iova addr lvl) lvl = true →
      vtd_iova_to_slpte mem m scalableMode ce iova isWrite aw =
        Except.error VTDFaultReason.pagingEntryRsvd) := by
  constructor
  · intro addr lvl hpath hlv hlvl3 hne hacc hrsvd hlast hdisj
    have hs := slpt_shift_lt_64 hlvl3
    have hwalk := vtd_slpte_walk_path_ok mem m isWrite (vtd_ce_get_level ce)
      aw iova hpath hlv hne hacc hrsvd hlast
    have hsize := slpt_size_eq hs
    have hxlat_le : vtd_get_slpte_addr (slpteAt mem iova addr lvl) aw ≤
        2 ^ 57 - 1 := by
      have h1 : vtd_get_slpte_addr (slpteAt mem iova addr lvl) aw ≤
          VTD_SL_PT_BASE_ADDR_MASK aw := Nat.and_le_right
      have h2 : VTD_SL_PT_BASE_ADDR_MASK aw ≤ (1 <<< aw) - 1 :=
        Nat.and_le_right
      have h3 : (1 : Nat) <<< aw = 2 ^ aw := Nat.one_shiftLeft aw
      have h4 : (2 : Nat) ^ aw ≤ 2 ^ 57 :=
        Nat.pow_le_pow_right (by norm_num) haw
      omega
    have hshift_le : vtd_slpt_level_shift lvl ≤ 30 := by
      unfold vtd_slpt_level_shift VTD_PAGE_SHIFT_4K VTD_SL_LEVEL_BITS
      omega
    have hpow : (2 : Nat) ^ vtd_slpt_level_shift lvl ≤ 2 ^ 30 :=
      Nat.pow_le_pow_right (by norm_num) hshift_le
    have hpos : (0 : Nat) < 2 ^ vtd_slpt_level_shift lvl := Nat.pos_pow_of_pos _ (by norm_num)
    have hlt : vtd_get_slpte_addr (slpteAt mem iova addr lvl) aw +
        ((u64Max ^^^ vtd_slpt_level_page_mask lvl) + 1) - 1 < 2 ^ 64 := by
      rw [hsize]
      have h5 : (2 : Nat) ^ 57 - 1 + 2 ^ 30 < 2 ^ 64 := by norm_num
      omega
    constructor
    · unfold vtd_iova_to_slpte
      rw [hrange]
      simp only [Bool.not_true, Bool.false_eq_true, if_false, hwalk]
      rw [Nat.mod_eq_of_lt hlt, hsize]
      rcases hdisj with h | h
      · have hd : decide (VTD_INTERRUPT_ADDR_LAST <
            vtd_get_slpte_addr (slpteAt mem iova addr lvl) aw) = true :=
          decide_eq_true h
        simp [h]
      · simp [h]
    · have hlow : u64Max ^^^ vtd_slpt_level_page_mask lvl =
          2 ^ vtd_slpt_level_shift lvl - 1 := by
        unfold vtd_slpt_level_page_mask
        rw [Nat.xor_cancel_left, Nat.one_shiftLeft]
      have hmaskdisj : vtd_slpt_level_page_mask lvl &&&
          (2 ^ vtd_slpt_level_shift lvl - 1) = 0 := by
        unfold vtd_slpt_level_page_mask
        rw [Nat.one_shiftLeft]
        exact compl_mask_and_low _ (le_of_lt hs)
      have hH : (vtd_get_slpte_addr (slpteAt mem iova addr lvl) aw &&&
          vtd_slpt_level_page_mask lvl) % 2 ^ vtd_slpt_level_shift lvl = 0 := by
        rw [← Nat.and_pow_two_sub_one_eq_mod, Nat.and_assoc, hmaskdisj,
          Nat.and_zero]
      rw [hlow, Nat.and_pow_two_sub_one_eq_mod]
      exact aligned_add_eq_or hH (Nat.mod_lt _ hpos)
  · intro addr lvl hpath hlv hne hacc hrsvd
    have hwalk := vtd_slpte_walk_path_rsvd mem m isWrite
      (vtd_ce_get_level ce) aw iova hpath hlv hne hacc hrsvd
    unfold vtd_iova_to_slpte
    rw [hrange]
    simp [hwalk]

/-- C1 counterexample: a concrete page table with a present,
reserved-bit-clean chain (read and write granted at every entry) down to a
level-1 leaf, yet `vtd_iova_to_slpte` does not succeed: the leaf maps frame
`0xFEE00000` inside the interrupt window, so the walk returns the
interrupt-address fault instead. -/
theorem claim_C1_counterexample :
    SLPath memC1a zeroMasks 39 0 (vtd_ce_get_slpt_base ceC1)
      (vtd_ce_get_level ceC1) 0x2000 1 ∧
    slpteAt memC1a 0 0x2000 1 = 0xFEE00003 ∧
    slpteAt memC1a 0 0x2000 1 ≠ u64Max ∧
    slpteAt memC1a 0 0x2000 1 &&& VTD_SL_R ≠ 0 ∧
    slpteAt memC1a 0 0x2000 1 &&& VTD_SL_W ≠ 0 ∧
    vtd_slpte_nonzero_rsvd zeroMasks (slpteAt memC1a 0 0x2000 1) 1 = false ∧
    vtd_is_last_slpte (slpteAt memC1a 0 0x2000 1) 1 = true ∧
    vtd_iova_range_check 0 ceC1 39 = true ∧
    vtd_iova_to_slpte memC1a zeroMasks false ceC1 0 false 39 =
      Except.error VTDFaultReason.interruptAddr := by
  refine ⟨?_, by decide, by decide, by decide, by decide, by decide,
    by decide, by decide, by rfl⟩
  have hchild : vtd_get_slpte_addr
      (slpteAt memC1a 0 (vtd_ce_get_slpt_base ceC1) (vtd_ce_get_level ceC1))
      39 = 0x2000 := by decide
  have hlevel : vtd_ce_get_level ceC1 - 1 = 1 := by decide
  refine SLPath.step _ _ (by decide) (by decide) (by decide) (by decide)
    (by decide) (by decide) ?_
  rw [hchild, hlevel]
  exact SLPath.refl 0x2000 1

/-- C1 witness: the amended walk-correctness theorem applied to a concrete
two-level table whose leaf maps frame `0x5000`, outside the interrupt
window. -/
theorem claim_C1_witness :
    vtd_iova_to_slpte memC1b zeroMasks false ceC1 0 false 39 =
      Except.ok (slpteAt memC1b 0 0x2000 1, 1,
        slpteAt memC1b 0 0x2000 1 &&& VTD_SL_R != 0,
        slpteAt memC1b 0 0x2000 1 &&& VTD_SL_W != 0) ∧
    (vtd_get_slpte_addr (slpteAt memC1b 0 0x2000 1) 39 &&&
        vtd_slpt_level_page_mask 1) +
      (0 &&& (u64Max ^^^ vtd_slpt_level_page_mask 1)) =
    ((vtd_get_slpte_addr (slpteAt memC1b 0 0x2000 1) 39 &&&
        vtd_slpt_level_page_mask 1) ||| 0 % 2 ^ vtd_slpt_level_shift 1) := by
  have hpath : SLPath memC1b zeroMasks 39 0 (vtd_ce_get_slpt_base ceC1)
      (vtd_ce_get_level ceC1) 0x2000 1 := by
    have hchild : vtd_get_slpte_addr
        (slpteAt memC1b 0 (vtd_ce_get_slpt_base ceC1) (vtd_ce_get_level ceC1))
        39 = 0x2000 := by decide
    have hlevel : vtd_ce_get_level ceC1 - 1 = 1 := by decide
    refine SLPath.step _ _ (by decide) (by decide) (by decide) (by decide)
      (by decide) (by decide) ?_
    rw [hchild, hlevel]
    exact SLPath.refl 0x2000 1
  exact (claim_C1_slpte_walk memC1b zeroMasks false ceC1 0 false 39
    (by decide) (by norm_num)).1 0x2000 1 hpath (by decide) (by decide)
    (by decide) (by decide) (by decide) (by decide) (Or.inr (by decide))

/-- Once the walk loop has resolved a leaf, `vtd_iova_to_slpte` returns the
leaf exactly when the translated page misses the interrupt window, and the
mode-dependent interrupt-address fault otherwise. -/
theorem vtd_iova_to_slpte_window_eval (mem : GuestMem) (m : RsvdMasks)
    (scalableMode : Bool) (ce : VTDContextEntry) (iova : Nat)
    (isWrite : Bool) (aw slpte lvl : Nat) (r w : Bool)
    (hrange : vtd_iova_range_check iova ce aw = true)
    (haw : aw ≤ 57) (hlvl : lvl ≤ 3)
    (hwalk : vtd_slpte_walk mem m isWrite (vtd_ce_get_level ce) aw iova
      (vtd_ce_get_slpt_base ce) (vtd_ce_get_level ce) true true =
      Except.ok (slpte, lvl, r, w)) :
    vtd_iova_to_slpte mem m scalableMode ce iova isWrite aw =
      if VTD_INTERRUPT_ADDR_LAST < vtd_get_slpte_addr slpte aw ∨
          vtd_get_slpte_addr slpte aw + 2 ^ vtd_slpt_level_shift lvl - 1 <
            VTD_INTERRUPT_ADDR_FIRST
      then Except.ok (slpte, lvl, r, w)
      else Except.error (if scalableMode then VTDFaultReason.smInterruptAddr
                         else VTDFaultReason.interruptAddr) := by
  have hs := slpt_shift_lt_64 hlvl
  have hsize := slpt_size_eq hs
  have hxlat_le : vtd_get_slpte_addr slpte aw ≤ 2 ^ 57 - 1 := by
    have h1 : vtd_get_slpte_addr slpte aw ≤ VTD_SL_PT_BASE_ADDR_MASK aw :=
      Nat.and_le_right
    have h2 : VTD_SL_PT_BASE_ADDR_MASK aw ≤ (1 <<< aw) - 1 :=
      Nat.and_le_right
    have h3 : (1 : Nat) <<< aw = 2 ^ aw := Nat.one_shiftLeft aw
    have h4 : (2 : Nat) ^ aw ≤ 2 ^ 57 :=
      Nat.pow_le_pow_right (by norm_num) haw
    omega
  have hshift_le : vtd_slpt_level_shift lvl ≤ 30 := by
    unfold vtd_slpt_level_shift VTD_PAGE_SHIFT_4K VTD_SL_LEVEL_BITS
    omega
  have hpow : (2 : Nat) ^ vtd_slpt_level_shift lvl ≤ 2 ^ 30 :=
    Nat.pow_le_pow_right (by norm_num) hshift_le
  have hlt : vtd_get_slpte_addr slpte aw +
      ((u64Max ^^^ vtd_slpt_level_page_mask lvl) + 1) - 1 < 2 ^ 64 := by
    rw [hsize]
    have h5 : (2 : Nat) ^ 57 - 1 + 2 ^ 30 < 2 ^ 64 := by norm_num
    omega
  unfold vtd_iova_to_slpte
  rw [hrange]
  simp only [Bool.not_true, Bool.false_eq_true, if_false, hwalk]
  rw [Nat.mod_eq_of_lt hlt, hsize]
  by_cases h1 : VTD_INTERRUPT_ADDR_LAST < vtd_get_slpte_addr slpte aw
  · simp [h1]
  · by_cases h2 : vtd_get_slpte_addr slpte aw +
        2 ^ vtd_slpt_level_shift lvl - 1 < VTD_INTERRUPT_ADDR_FIRST
    · simp [h1, h2]
    · simp [h1, h2]

/-- C8.  Interrupt-window rejection: when the second-stage walk resolves a
leaf whose translated page overlaps the window `0xFEE00000`-`0xFEEFFFFF`,
`vtd_iova_to_slpte` fails with the scalable-mode interrupt-address fault
code when scalable mode is enabled and the legacy code otherwise; and it
succeeds only when the translated page lies entirely outside the window. -/
theorem claim_C8_interrupt_window (mem : GuestMem) (m : RsvdMasks)
    (scalableMode : Bool) (ce : VTDContextEntry) (iova : Nat)
    (isWrite : Bool) (aw slpte lvl : Nat) (r w : Bool)
    (hrange : vtd_iova_range_check iova ce aw = true)
    (haw : aw ≤ 57) (hlvl : lvl ≤ 3)
    (hwalk : vtd_slpte_walk mem m isWrite (vtd_ce_get_level ce) aw iova
      (vtd_ce_get_slpt_base ce) (vtd_ce_get_level ce) true true =
      Except.ok (slpte, lvl, r, w)) :
    (vtd_get_slpte_addr slpte aw ≤ VTD_INTERRUPT_ADDR_LAST →
      VTD_INTERRUPT_ADDR_FIRST ≤
        vtd_get_slpte_addr slpte aw + 2 ^ vtd_slpt_level_shift lvl - 1 →
      vtd_iova_to_slpte mem m scalableMode ce iova isWrite aw =
        Except.error (if scalableMode then VTDFaultReason.smInterruptAddr
                      else VTDFaultReason.interruptAddr)) ∧
    (∀ res, vtd_iova_to_slpte mem m scalableMode ce iova isWrite aw =
        Except.ok res →
      VTD_INTERRUPT_ADDR_LAST < vtd_get_slpte_addr slpte aw ∨
        vtd_get_slpte_addr slpte aw + 2 ^ vtd_slpt_level_shift lvl - 1 <
          VTD_INTERRUPT_ADDR_FIRST) := by
  have heval := vtd_iova_to_slpte_window_eval mem m scalableMode ce iova
    isWrite aw slpte lvl r w hrange haw hlvl hwalk
  constructor
  · intro hle hge
    rw [heval, if_neg]
    omega
  · intro res hres
    by_contra hcon
    push_neg at hcon
    rw [heval, if_neg] at hres
    · exact absurd hres (by simp)
    · omega

/-- C8 witness: the interrupt-window theorem applied to the concrete table
whose leaf maps `0xFEE00000`, yielding the legacy interrupt-address fault. -/
theorem claim_C8_witness :
    vtd_iova_to_slpte memC1a zeroMasks false ceC1 0 false 39 =
      Except.error (if false then VTDFaultReason.smInterruptAddr
                    else VTDFaultReason.interruptAddr) :=
  (claim_C8_interrupt_window memC1a zeroMasks false ceC1 0 false 39
    0xFEE00003 1 true true (by decide) (by norm_num) (by decide) (by rfl)).1
    (by decide) (by decide)

/-- A first-stage chain of present entries (writable throughout when the
access is a write) makes `vtd_flpte_walk` succeed with the leaf, read
permission granted, and the write permission accumulated over all walked
entries. -/
theorem vtd_flpte_walk_chain_ok (mem : GuestMem) (isWrite : Bool)
    (top aw iova : Nat) :
    ∀ {addr level : Nat} {es : List Nat} {lf ll : Nat},
      FLChain mem aw iova addr level es lf ll →
      (isWrite = true → ∀ e ∈ es, e &&& VTD_FL_RW_MASK ≠ 0) →
      ∀ r0 w0 : Bool,
        vtd_flpte_walk mem isWrite top aw iova addr level r0 w0 =
          Except.ok (lf, ll, true,
            w0 && es.all (fun e => e &&& VTD_FL_RW_MASK != 0)) := by
  intro addr level es lf ll hchain
  induction hchain with
  | leaf a l hlv hne hp hlast =>
    intro hall r0 w0
    obtain ⟨k, rfl⟩ := Nat.exists_eq_succ_of_ne_zero hlv
    have hA : (flpteAt mem iova a (k + 1) == u64Max) = false :=
      beq_eq_false_iff_ne.mpr hne
    have hC : (isWrite &&
        (flpteAt mem iova a (k + 1) &&& VTD_FL_RW_MASK == 0)) = false := by
      cases hw : isWrite
      · simp
      · have := hall hw (flpteAt mem iova a (k + 1)) (by simp)
        simp [beq_eq_false_iff_ne.mpr this]
    simp only [flpteAt] at hA hC hp hlast
    simp only [vtd_flpte_walk]
    simp [hA, hC, hp, hlast, flpteAt, Bool.and_comm]
  | node a l hlv hne hp hnl hrest ih =>
    intro hall r0 w0
    obtain ⟨k, rfl⟩ := Nat.exists_eq_succ_of_ne_zero hlv
    have hA : (flpteAt mem iova a (k + 1) == u64Max) = false :=
      beq_eq_false_iff_ne.mpr hne
    have hC : (isWrite &&
        (flpteAt mem iova a (k + 1) &&& VTD_FL_RW_MASK == 0)) = false := by
      cases hw : isWrite
      · simp
      · have := hall hw (flpteAt mem iova a (k + 1)) (by simp)
        simp [beq_eq_false_iff_ne.mpr this]
    simp only [flpteAt] at hA hC hp hnl
    simp only [vtd_flpte_walk]
    simp [hA, hC, hp, hnl]
    simp only [Nat.succ_sub_one, flpteAt] at ih
    rw [ih (fun hw e he => hall hw e (List.mem_cons_of_mem _ he))]
    simp [flpteAt, Bool.and_assoc]

/-- On a write access, a first-stage chain of present entries containing
some entry without the writable bit makes `vtd_flpte_walk` fail with the
write fault. -/
theorem vtd_flpte_walk_chain_wfault (mem : GuestMem) (top aw iova : Nat) :
    ∀ {addr level : Nat} {es : List Nat} {lf ll : Nat},
      FLChain mem aw iova addr level es lf ll →
      (∃ e ∈ es, e &&& VTD_FL_RW_MASK = 0) →
      ∀ r0 w0 : Bool,
        vtd_flpte_walk mem true top aw iova addr level r0 w0 =
          Except.error VTDFaultReason.writeFault := by
  intro addr level es lf ll hchain
  induction hchain with
  | leaf a l hlv hne hp hlast =>
    intro hex r0 w0
    obtain ⟨k, rfl⟩ := Nat.exists_eq_succ_of_ne_zero hlv
    obtain ⟨e, he, hrw⟩ := hex
    simp only [List.mem_singleton] at he
    subst he
    have hA : (flpteAt mem iova a (k + 1) == u64Max) = false :=
      beq_eq_false_iff_ne.mpr hne
    have hC : (flpteAt mem iova a (k + 1) &&& VTD_FL_RW_MASK == 0) = true :=
      beq_iff_eq.mpr hrw
    simp only [flpteAt] at hA hC hp
    simp only [vtd_flpte_walk]
    simp [hA, hC, hp]
  | @node a l es2 lf2 ll2 hlv hne hp hnl hrest ih =>
    intro hex r0 w0
    obtain ⟨k, rfl⟩ := Nat.exists_eq_succ_of_ne_zero hlv
    have hA : (flpteAt mem iova a (k + 1) == u64Max) = false :=
      beq_eq_false_iff_ne.mpr hne
    by_cases hrw : flpteAt mem iova a (k + 1) &&& VTD_FL_RW_MASK = 0
    · have hC : (flpteAt mem iova a (k + 1) &&& VTD_FL_RW_MASK == 0) = true :=
        beq_iff_eq.mpr hrw
      simp only [flpteAt] at hA hC hp
      simp only [vtd_flpte_walk]
      simp [hA, hC, hp]
    · have hC : (flpteAt mem iova a (k + 1) &&& VTD_FL_RW_MASK == 0) = false :=
        beq_eq_false_iff_ne.mpr hrw
      have hex2 : ∃ e ∈ es2, e &&& VTD_FL_RW_MASK = 0 := by
        obtain ⟨e, he, hrw2⟩ := hex
        rcases List.mem_cons.mp he with he1 | he2
        · exact absurd (he1 ▸ hrw2) hrw
        · exact ⟨e, he2, hrw2⟩
      simp only [flpteAt] at hA hC hp hnl
      simp only [vtd_flpte_walk]
      simp [hA, hC, hp, hnl]
      simp only [Nat.succ_sub_one, flpteAt] at ih
      rw [ih hex2]

/-- A first-stage walk that reaches a non-present entry through a chain of
present entries fails with the paging-entry-invalid fault. -/
theorem vtd_flpte_walk_path_nonpresent (mem : GuestMem) (isWrite : Bool)
    (top aw iova : Nat) :
    ∀ {addr0 lvl0 addr lvl : Nat},
      FLPath mem aw iova isWrite addr0 lvl0 addr lvl →
      lvl ≠ 0 →
      flpteAt mem iova addr lvl ≠ u64Max →
      vtd_flpte_present (flpteAt mem iova addr lvl) = false →
      ∀ r0 w0 : Bool,
        vtd_flpte_walk mem isWrite top aw iova addr0 lvl0 r0 w0 =
          Except.error VTDFaultReason.pagingEntryInv := by
  intro addr0 lvl0 addr lvl hpath
  induction hpath with
  | refl a l =>
    intro hlv hne hnp r0 w0
    obtain ⟨k, rfl⟩ := Nat.exists_eq_succ_of_ne_zero hlv
    have hA : (flpteAt mem iova a (k + 1) == u64Max) = false :=
      beq_eq_false_iff_ne.mpr hne
    simp only [flpteAt] at hA hnp
    simp only [vtd_flpte_walk]
    simp [hA, hnp]
  | step a l hlv hne hp hw hnl hrest ih =>
    intro hlv2 hne2 hnp2 r0 w0
    obtain ⟨k, rfl⟩ := Nat.exists_eq_succ_of_ne_zero hlv
    have hA : (flpteAt mem iova a (k + 1) == u64Max) = false :=
      beq_eq_false_iff_ne.mpr hne
    have hC : (isWrite &&
        (flpteAt mem iova a (k + 1) &&& VTD_FL_RW_MASK == 0)) = false := by
      cases hwv : isWrite
      · simp
      · simp [beq_eq_false_iff_ne.mpr (hw hwv)]
    simp only [flpteAt] at hA hC hp hnl
    simp only [vtd_flpte_walk]
    simp [hA, hC, hp, hnl]
    simp only [Nat.succ_sub_one, flpteAt] at ih
    rw [ih hlv2 hne2 hnp2]

/-- C9.  First-stage walk permission rule: a non-present entry at any level
reached through the walked chain makes `vtd_iova_to_flpte` fail with the
paging-entry-invalid fault; every present chain grants read implicitly
(returned read permission is true) with the returned write permission the
conjunction of the writable bits of all walked entries; and a write access
fails with the write fault exactly when some entry along the walked chain
lacks the explicit writable bit. -/
theorem claim_C9_flpte_walk (mem : GuestMem) (base top iova aw : Nat)
    (isWrite : Bool) :
    (∀ addr lvl, FLPath mem aw iova isWrite base top addr lvl →
      lvl ≠ 0 →
      flpteAt mem iova addr lvl ≠ u64Max →
      vtd_flpte_present (flpteAt mem iova addr lvl) = false →
      vtd_iova_to_flpte mem base top iova isWrite aw =
        Except.error VTDFaultReason.pagingEntryInv) ∧
    (∀ es lf ll, FLChain mem aw iova base top es lf ll →
      (isWrite = true → ∀ e ∈ es, e &&& VTD_FL_RW_MASK ≠ 0) →
      vtd_iova_to_flpte mem base top iova isWrite aw =
        Except.ok (lf, ll, true,
          es.all (fun e => e &&& VTD_FL_RW_MASK != 0))) ∧
    (∀ es lf ll, FLChain mem aw iova base top es lf ll → isWrite = true →
      (vtd_iova_to_flpte mem base top iova isWrite aw =
          Except.error VTDFaultReason.writeFault ↔
        ∃ e ∈ es, e &&& VTD_FL_RW_MASK = 0)) := by
  refine ⟨?_, ?_, ?_⟩
  · intro addr lvl hpath hlv hne hnp
    exact vtd_flpte_walk_path_nonpresent mem isWrite top aw iova hpath hlv
      hne hnp true true
  · intro es lf ll hchain hall
    have h := vtd_flpte_walk_chain_ok mem isWrite top aw iova hchain hall
      true true
    simpa [vtd_iova_to_flpte] using h
  · intro es lf ll hchain hw
    subst hw
    constructor
    · intro hres
      by_contra hcon
      push_neg at hcon
      have hall : (true : Bool) = true → ∀ e ∈ es, e &&& VTD_FL_RW_MASK ≠ 0 :=
        fun _ e he => hcon e he
      have h := vtd_flpte_walk_chain_ok mem true top aw iova hchain hall
        true true
      rw [vtd_iova_to_flpte] at hres
      rw [h] at hres
      exact absurd hres (by simp)
    · intro hex
      have h := vtd_flpte_walk_chain_wfault mem top aw iova hchain hex
        true true
      simpa [vtd_iova_to_flpte] using h

/-- C9 witness: the first-stage permission theorem applied to a concrete
two-level table, all entries present and writable: the walk succeeds with
read granted and write permission the conjunction over both entries. -/
theorem claim_C9_witness :
    vtd_iova_to_flpte memC9 0x3000 2 0 true 39 =
      Except.ok (0x6003, 1, true,
        List.all [(0x4003 : Nat), 0x6003]
          (fun e => e &&& VTD_FL_RW_MASK != 0)) := by
  have h2 : flpteAt memC9 0 0x3000 2 = 0x4003 := by decide
  have h1 : flpteAt memC9 0 0x4000 1 = 0x6003 := by decide
  have hchild : vtd_get_flpte_addr (flpteAt memC9 0 0x3000 2) 39 = 0x4000 :=
    by decide
  have hleaf : FLChain memC9 39 0 0x4000 1 [flpteAt memC9 0 0x4000 1]
      (flpteAt memC9 0 0x4000 1) 1 :=
    FLChain.leaf _ _ (by decide) (by decide) (by decide) (by decide)
  rw [h1] at hleaf
  rw [← hchild] at hleaf
  have hchain : FLChain memC9 39 0 0x3000 2
      (flpteAt memC9 0 0x3000 2 :: [0x6003]) 0x6003 1 :=
    FLChain.node _ _ (by decide) (by decide) (by decide) (by decide) hleaf
  rw [h2] at hchain
  exact (claim_C9_flpte_walk memC9 0x3000 2 0 39 true).2.1
    [0x4003, 0x6003] 0x6003 1 hchain (fun _ e he => by
      fin_cases he <;> decide)

/-- C2.  Context-cache generation invariant: the translate path uses the
per-address-space cached context entry exactly when its stored generation
equals the global one; a global context-cache invalidation bumps the global
generation (with a full reset to stored generation 0 and global generation 1
at the wrap point), after which no previously cached entry compares valid,
so the next translate takes the re-fetch branch, uses the freshly fetched
entry, and re-validates the cache at the new generation.  The hypotheses are
the state invariant maintained by the source: stored generations never
exceed the global one, which stays below the wrap constant. -/
theorem claim_C2_context_cache_gen (st : CCState)
    (hInv : ∀ a, st.asGen a ≤ st.context_cache_gen)
    (hLt : st.context_cache_gen < VTD_CONTEXT_CACHE_GEN_MAX) :
    (∀ a fetched, (vtd_cc_branch st a fetched).1 = true ↔
      st.asGen a = st.context_cache_gen) ∧
    ((vtd_context_global_invalidate st).context_cache_gen =
        st.context_cache_gen + 1 ∨
      (st.context_cache_gen + 1 = VTD_CONTEXT_CACHE_GEN_MAX ∧
       (vtd_context_global_invalidate st).context_cache_gen = 1 ∧
       ∀ a, (vtd_context_global_invalidate st).asGen a = 0)) ∧
    (∀ a, (vtd_context_global_invalidate st).asGen a ≠
        (vtd_context_global_invalidate st).context_cache_gen) ∧
    (∀ a fetched,
      (vtd_cc_branch (vtd_context_global_invalidate st) a fetched).1 =
        false ∧
      (vtd_cc_branch (vtd_context_global_invalidate st) a fetched).2.1 =
        fetched ∧
      ((vtd_cc_branch (vtd_context_global_invalidate st) a
          fetched).2.2).asGen a =
        (vtd_context_global_invalidate st).context_cache_gen) := by
  have hmod : (st.context_cache_gen + 1) % 2 ^ 32 =
      st.context_cache_gen + 1 := by
    apply Nat.mod_eq_of_lt
    unfold VTD_CONTEXT_CACHE_GEN_MAX at hLt
    omega
  have hbump : (vtd_context_global_invalidate st).context_cache_gen =
        st.context_cache_gen + 1 ∨
      (st.context_cache_gen + 1 = VTD_CONTEXT_CACHE_GEN_MAX ∧
       (vtd_context_global_invalidate st).context_cache_gen = 1 ∧
       ∀ a, (vtd_context_global_invalidate st).asGen a = 0) := by
    unfold vtd_context_global_invalidate vtd_reset_context_cache_locked
    rw [hmod]
    by_cases hmax : st.context_cache_gen + 1 = VTD_CONTEXT_CACHE_GEN_MAX
    · right
      simp [hmax]
    · left
      simp [beq_eq_false_iff_ne.mpr hmax]
  have hkey : ∀ a, (vtd_context_global_invalidate st).asGen a ≠
      (vtd_context_global_invalidate st).context_cache_gen := by
    intro a
    unfold vtd_context_global_invalidate vtd_reset_context_cache_locked
    rw [hmod]
    by_cases hmax : st.context_cache_gen + 1 = VTD_CONTEXT_CACHE_GEN_MAX
    · simp [hmax]
    · simp only [beq_eq_false_iff_ne.mpr hmax, Bool.false_eq_true, if_false]
      have := hInv a
      omega
  refine ⟨?_, hbump, hkey, ?_⟩
  · intro a fetched
    unfold vtd_cc_branch
    by_cases h : st.asGen a = st.context_cache_gen
    · simp [h]
    · simp [beq_eq_false_iff_ne.mpr h, h]
  · intro a fetched
    unfold vtd_cc_branch
    simp [beq_eq_false_iff_ne.mpr (hkey a)]

/-- C2 witness: the theorem applied to a concrete state with global
generation 5 and every stored generation 5 (all caches valid); after the
invalidation the branch refetches. -/
theorem claim_C2_witness :
    ((vtd_cc_branch ⟨5, fun _ => 5, fun _ => ⟨0, 0⟩⟩ 0 ⟨7, 7⟩).1 = true ↔
      (5 : Nat) = 5) ∧
    (vtd_cc_branch
        (vtd_context_global_invalidate ⟨5, fun _ => 5, fun _ => ⟨0, 0⟩⟩) 0
        ⟨7, 7⟩).1 = false :=
  ⟨(claim_C2_context_cache_gen ⟨5, fun _ => 5, fun _ => ⟨0, 0⟩⟩
      (fun _ => le_refl 5) (by decide)).1 0 ⟨7, 7⟩,
   ((claim_C2_context_cache_gen ⟨5, fun _ => 5, fun _ => ⟨0, 0⟩⟩
      (fun _ => le_refl 5) (by decide)).2.2.2 0 ⟨7, 7⟩).1⟩

/-- Replacing under a key keeps the distinct-key invariant. -/
theorem iotlb_replace_nodup (tlb : Iotlb) (k : vtd_iotlb_key)
    (e : VTDIOTLBEntry) (h : (tlb.map Prod.fst).Nodup) :
    ((iotlb_replace tlb k e).map Prod.fst).Nodup := by
  unfold iotlb_replace
  refine List.Nodup.cons ?_ ?_
  · intro hmem
    obtain ⟨⟨k2, e2⟩, hmem2, hk2⟩ := List.mem_map.mp hmem
    have := (List.mem_filter.mp hmem2).2
    simp only at hk2
    subst hk2
    simp at this
  · exact ((List.filter_sublist tlb).map Prod.fst).nodup h

/-- Replacing under a key finds the new entry at that key. -/
theorem iotlb_replace_find_self (tlb : Iotlb) (k : vtd_iotlb_key)
    (e : VTDIOTLBEntry) : iotlb_find (iotlb_replace tlb k e) k = some e := by
  unfold iotlb_replace iotlb_find
  simp [List.find?]

/-- C6.  Translation-cache bound: starting from a cache within the hard cap
with at most one entry per key, an insertion preserves the cap and the
one-entry-per-key invariant, makes the inserted key hit with exactly the
recorded walk result, and, when the cache was already at or above the cap,
first resets the whole cache so that afterwards every other key misses. -/
theorem claim_C6_iotlb_bound (tlb : Iotlb)
    (source_id domain_id addr slpte access_flags level pasid : Nat)
    (hnodup : (tlb.map Prod.fst).Nodup)
    (hle : tlb.length ≤ VTD_IOTLB_MAX_SIZE) :
    (vtd_update_iotlb tlb source_id domain_id addr slpte access_flags level
        pasid).length ≤ VTD_IOTLB_MAX_SIZE ∧
    ((vtd_update_iotlb tlb source_id domain_id addr slpte access_flags level
        pasid).map Prod.fst).Nodup ∧
    iotlb_find (vtd_update_iotlb tlb source_id domain_id addr slpte
        access_flags level pasid)
      ⟨vtd_get_iotlb_gfn addr level, source_id, level, pasid⟩ =
      some ⟨vtd_get_iotlb_gfn addr level, domain_id, slpte, access_flags,
        vtd_slpt_level_page_mask level, pasid⟩ ∧
    (VTD_IOTLB_MAX_SIZE ≤ tlb.length →
      ∀ k, k ≠ ⟨vtd_get_iotlb_gfn addr level, source_id, level, pasid⟩ →
        iotlb_find (vtd_update_iotlb tlb source_id domain_id addr slpte
          access_flags level pasid) k = none) := by
  unfold vtd_update_iotlb
  by_cases hfull : VTD_IOTLB_MAX_SIZE ≤ tlb.length
  · simp only [if_pos hfull]
    refine ⟨?_, ?_, ?_, ?_⟩
    · simp [iotlb_replace, vtd_reset_iotlb_locked, VTD_IOTLB_MAX_SIZE]
    · exact iotlb_replace_nodup _ _ _ (by simp [vtd_reset_iotlb_locked])
    · exact iotlb_replace_find_self _ _ _
    · intro _ k hk
      simp [iotlb_replace, vtd_reset_iotlb_locked, iotlb_find, List.find?,
        beq_eq_false_iff_ne.mpr (Ne.symm hk)]
  · simp only [if_neg hfull]
    refine ⟨?_, ?_, ?_, ?_⟩
    · have h1 : (tlb.filter (fun p =>
          !(p.1 == (⟨vtd_get_iotlb_gfn addr level, source_id, level,
            pasid⟩ : vtd_iotlb_key)))).length ≤ tlb.length :=
        (List.filter_sublist tlb).length_le
      simp only [iotlb_replace, List.length_cons]
      omega
    · exact iotlb_replace_nodup _ _ _ hnodup
    · exact iotlb_replace_find_self _ _ _
    · intro hc
      exact absurd hc hfull

/-- C6 witness: inserting into the empty cache. -/
theorem claim_C6_witness :
    iotlb_find (vtd_update_iotlb [] 1 2 0x1000 0x2003 3 1 0)
      ⟨vtd_get_iotlb_gfn 0x1000 1, 1, 1, 0⟩ =
      some ⟨vtd_get_iotlb_gfn 0x1000 1, 2, 0x2003, 3,
        vtd_slpt_level_page_mask 1, 0⟩ :=
  (claim_C6_iotlb_bound [] 1 2 0x1000 0x2003 3 1 0 (by simp)
    (by simp [VTD_IOTLB_MAX_SIZE])).2.2.1

/-- The lookup loop, evaluated: probe level 1, then 2, then 3. -/
theorem vtd_lookup_iotlb_eval (tlb : Iotlb) (source_id pasid addr : Nat) :
    vtd_lookup_iotlb tlb source_id pasid addr =
      match iotlb_find tlb
          ⟨vtd_get_iotlb_gfn addr 1, source_id, 1, pasid⟩ with
      | some e => some e
      | none =>
        match iotlb_find tlb
            ⟨vtd_get_iotlb_gfn addr 2, source_id, 2, pasid⟩ with
        | some e => some e
        | none => iotlb_find tlb
            ⟨vtd_get_iotlb_gfn addr 3, source_id, 3, pasid⟩ := by
  unfold vtd_lookup_iotlb
  rw [show List.range' VTD_SL_PT_LEVEL (VTD_SL_PML4_LEVEL - VTD_SL_PT_LEVEL) =
    [1, 2, 3] from rfl]
  simp only [List.findSome?]
  rcases iotlb_find tlb ⟨vtd_get_iotlb_gfn addr 1, source_id, 1, pasid⟩ with
    _ | e1
  · rcases iotlb_find tlb ⟨vtd_get_iotlb_gfn addr 2, source_id, 2, pasid⟩ with
      _ | e2
    · rcases iotlb_find tlb
          ⟨vtd_get_iotlb_gfn addr 3, source_id, 3, pasid⟩ with _ | e3 <;> rfl
    · rfl
  · rfl

/-- C7.  Lookup granularity: the cache lookup probes the leaf (4 KiB) level
first and then the coarser levels in order, returning the first match; and
an entry inserted at any coarser large-page level L is found by a lookup of
any address inside that large page: the lookup hits, and when no finer-level
entry shadows it the lookup returns exactly the inserted entry. -/
theorem claim_C7_lookup_granularity (tlb : Iotlb)
    (source_id domain_id addr addr2 slpte access_flags pasid L : Nat)
    (hL : L = 1 ∨ L = 2 ∨ L = 3)
    (hmask : addr2 &&& vtd_slpt_level_page_mask L =
      addr &&& vtd_slpt_level_page_mask L) :
    (∀ e, iotlb_find tlb ⟨vtd_get_iotlb_gfn addr 1, source_id, 1, pasid⟩ =
        some e → vtd_lookup_iotlb tlb source_id pasid addr = some e) ∧
    (iotlb_find tlb ⟨vtd_get_iotlb_gfn addr 1, source_id, 1, pasid⟩ = none →
      ∀ e, iotlb_find tlb ⟨vtd_get_iotlb_gfn addr 2, source_id, 2, pasid⟩ =
        some e → vtd_lookup_iotlb tlb source_id pasid addr = some e) ∧
    (iotlb_find tlb ⟨vtd_get_iotlb_gfn addr 1, source_id, 1, pasid⟩ = none →
      iotlb_find tlb ⟨vtd_get_iotlb_gfn addr 2, source_id, 2, pasid⟩ = none →
      vtd_lookup_iotlb tlb source_id pasid addr =
        iotlb_find tlb ⟨vtd_get_iotlb_gfn addr 3, source_id, 3, pasid⟩) ∧
    (vtd_lookup_iotlb
        (vtd_update_iotlb tlb source_id domain_id addr slpte access_flags L
          pasid) source_id pasid addr2 ≠ none) ∧
    ((∀ l, 1 ≤ l → l < L →
        iotlb_find (vtd_update_iotlb tlb source_id domain_id addr slpte
          access_flags L pasid)
          ⟨vtd_get_iotlb_gfn addr2 l, source_id, l, pasid⟩ = none) →
      vtd_lookup_iotlb
        (vtd_update_iotlb tlb source_id domain_id addr slpte access_flags L
          pasid) source_id pasid addr2 =
      some ⟨vtd_get_iotlb_gfn addr L, domain_id, slpte, access_flags,
        vtd_slpt_level_page_mask L, pasid⟩) := by
  have hgfn : vtd_get_iotlb_gfn addr2 L = vtd_get_iotlb_gfn addr L := by
    unfold vtd_get_iotlb_gfn
    rw [hmask]
  have hhit : iotlb_find (vtd_update_iotlb tlb source_id domain_id addr slpte
      access_flags L pasid)
      ⟨vtd_get_iotlb_gfn addr2 L, source_id, L, pasid⟩ =
      some ⟨vtd_get_iotlb_gfn addr L, domain_id, slpte, access_flags,
        vtd_slpt_level_page_mask L, pasid⟩ := by
    rw [hgfn]
    unfold vtd_update_iotlb
    exact iotlb_replace_find_self _ _ _
  refine ⟨?_, ?_, ?_, ?_, ?_⟩
  · intro e h1
    rw [vtd_lookup_iotlb_eval, h1]
  · intro h1 e h2
    rw [vtd_lookup_iotlb_eval, h1, h2]
  · intro h1 h2
    rw [vtd_lookup_iotlb_eval, h1, h2]
  · rw [vtd_lookup_iotlb_eval]
    rcases hL with rfl | rfl | rfl
    · rw [hhit]
      simp
    · rcases hfind : iotlb_find (vtd_update_iotlb tlb source_id domain_id
          addr slpte access_flags 2 pasid)
          ⟨vtd_get_iotlb_gfn addr2 1, source_id, 1, pasid⟩ with _ | e1
      · rw [hhit]
        simp
      · simp
    · rcases hfind : iotlb_find (vtd_update_iotlb tlb source_id domain_id
          addr slpte access_flags 3 pasid)
          ⟨vtd_get_iotlb_gfn addr2 1, source_id, 1, pasid⟩ with _ | e1
      · rcases hfind2 : iotlb_find (vtd_update_iotlb tlb source_id domain_id
            addr slpte access_flags 3 pasid)
            ⟨vtd_get_iotlb_gfn addr2 2, source_id, 2, pasid⟩ with _ | e2
        · rw [hhit]
          simp
        · simp
      · simp
  · intro hnone
    rw [vtd_lookup_iotlb_eval]
    rcases hL with rfl | rfl | rfl
    · rw [hhit]
    · rw [hnone 1 (by omega) (by omega), hhit]
    · rw [hnone 1 (by omega) (by omega), hnone 2 (by omega) (by omega), hhit]

/-- C7 witness: a 2 MiB (level-2) entry inserted for address `0x200000` is
found by a lookup of `0x200FFF`, which lies inside the same large page. -/
theorem claim_C7_witness :
    vtd_lookup_iotlb (vtd_update_iotlb [] 1 2 0x200000 0x5083 3 2 0) 1 0
      0x200FFF ≠ none :=
  (claim_C7_lookup_granularity [] 1 2 0x200000 0x200FFF 0x5083 3 0 2
    (Or.inr (Or.inl rfl)) (by decide)).2.2.2.1

/-- Wrapping increment: the source writes it as a compare against the size,
which equals the modulus for an in-range head. -/
theorem iq_head_incr_eq_mod {h s : Nat} (hh : h < s) :
    (if h + 1 == s then 0 else h + 1) = (h + 1) % s := by
  by_cases he : h + 1 = s
  · simp [he]
  · rw [if_neg (by simpa using he), Nat.mod_eq_of_lt (by omega)]

/-- The drain loop, characterised: after `k` successfully processed
descriptors (none of which reached the tail) a failing descriptor stops the
drain with the head at the last completed position, the head register
persisted for every completed descriptor, and the queue-error flag set. -/
theorem vtd_fetch_loop_stops (ok : Nat → Bool) :
    ∀ (k : Nat) (st : IQState) (fuel : Nat),
      st.iq_head < st.iq_size → st.iq_tail < st.iq_size → k < fuel →
      (∀ i, i < k → ok ((st.iq_head + i) % st.iq_size) = true ∧
        (st.iq_head + i) % st.iq_size ≠ st.iq_tail) →
      ok ((st.iq_head + k) % st.iq_size) = false →
      (st.iq_head + k) % st.iq_size ≠ st.iq_tail →
      vtd_fetch_loop ok fuel st =
        { st with iq_head := (st.iq_head + k) % st.iq_size,
                  iqh_reg := if k = 0 then st.iqh_reg
                             else (st.iq_head + k) % st.iq_size,
                  iqe := true } := by
  intro k
  induction k with
  | zero =>
    intro st fuel hh ht hf hok hfail hnt
    obtain ⟨f, rfl⟩ := Nat.exists_eq_succ_of_ne_zero hf.ne'
    rw [Nat.add_zero, Nat.mod_eq_of_lt hh] at hfail hnt
    simp only [vtd_fetch_loop]
    rw [if_neg (by simpa using hnt)]
    simp [vtd_process_inv_desc, hfail, Nat.mod_eq_of_lt hh]
  | succ k ih =>
    intro st fuel hh ht hf hok hfail hnt
    obtain ⟨f, rfl⟩ := Nat.exists_eq_succ_of_ne_zero
      (Nat.lt_of_le_of_lt (Nat.zero_le _) hf).ne'
    have hok0 := hok 0 (Nat.succ_pos k)
    rw [Nat.add_zero, Nat.mod_eq_of_lt hh] at hok0
    have hs0 : 0 < st.iq_size := Nat.lt_of_le_of_lt (Nat.zero_le _) hh
    simp only [vtd_fetch_loop]
    rw [if_neg (by simpa using hok0.2)]
    simp only [vtd_process_inv_desc, hok0.1, if_true]
    rw [iq_head_incr_eq_mod hh]
    have hre : ∀ i, ((st.iq_head + 1) % st.iq_size + i) % st.iq_size =
        (st.iq_head + (i + 1)) % st.iq_size := by
      intro i
      rw [Nat.mod_add_mod]
      congr 1
      omega
    have ih2 := ih { st with iq_head := (st.iq_head + 1) % st.iq_size,
                             iqh_reg := (st.iq_head + 1) % st.iq_size } f
      (by dsimp only; exact Nat.mod_lt _ hs0) (by dsimp only; exact ht)
      (Nat.lt_of_succ_lt_succ hf)
      (fun i hi => by
        dsimp only
        rw [hre i]
        exact hok (i + 1) (Nat.succ_lt_succ hi))
      (by dsimp only; rw [hre k]; exact hfail)
      (by dsimp only; rw [hre k]; exact hnt)
    dsimp only at ih2
    rw [ih2, hre k]
    by_cases hk0 : k = 0
    · subst hk0
      rw [if_pos rfl, if_neg (Nat.succ_ne_zero 0)]
    · rw [if_neg hk0, if_neg (Nat.succ_ne_zero k)]

/-- C3.  Invalidation-queue drain and error semantics: on a tail-register
write with queueing enabled and no pending queue error, descriptors are
drained from the head, the head advancing modulo the queue size and being
persisted to the head register after each successfully processed
descriptor; the first failing descriptor stops the drain immediately with
the head (and head register) at the last completed descriptor and raises
the queue-error condition; and a tail write while the error condition is
set latches the tail but drains nothing. -/
theorem claim_C3_inv_queue_drain (ok : Nat → Bool) (st : IQState)
    (newTail k : Nat)
    (hh : st.iq_head < st.iq_size) (ht : newTail < st.iq_size)
    (hk : k < st.iq_size)
    (hok : ∀ i, i < k → ok ((st.iq_head + i) % st.iq_size) = true ∧
      (st.iq_head + i) % st.iq_size ≠ newTail)
    (hfail : ok ((st.iq_head + k) % st.iq_size) = false)
    (hnt : (st.iq_head + k) % st.iq_size ≠ newTail) :
    (st.iqe = false →
      vtd_handle_iqt_write ok true newTail st =
        { st with iq_tail := newTail,
                  iq_head := (st.iq_head + k) % st.iq_size,
                  iqh_reg := if k = 0 then st.iqh_reg
                             else (st.iq_head + k) % st.iq_size,
                  iqe := true }) ∧
    (st.iqe = true →
      vtd_handle_iqt_write ok true newTail st =
        { st with iq_tail := newTail }) := by
  obtain ⟨h0, t0, s0, r0, e0⟩ := st
  simp only at hh ht hok hfail hnt ⊢
  constructor
  · intro he
    subst he
    unfold vtd_handle_iqt_write
    simp only [Bool.not_false, Bool.and_true, if_true]
    unfold vtd_fetch_inv_desc
    rw [if_neg (by simpa using Nat.not_le_of_lt ht)]
    exact vtd_fetch_loop_stops ok k ⟨h0, newTail, s0, r0, false⟩ s0 hh ht hk
      hok hfail hnt
  · intro he
    subst he
    unfold vtd_handle_iqt_write
    simp

/-- C3 witness: a queue of size 4, head 0, a tail write of 3, where the
descriptor at 0 processes and the one at 1 fails: the drain stops with head
and head register 1 and the error flag set; with the error flag already set,
the same tail write only latches the tail. -/
theorem claim_C3_witness :
    vtd_handle_iqt_write (fun i => !(i == 1)) true 3 ⟨0, 0, 4, 9, false⟩ =
      ⟨1, 3, 4, 1, true⟩ ∧
    vtd_handle_iqt_write (fun i => !(i == 1)) true 3 ⟨0, 0, 4, 9, true⟩ =
      ⟨0, 3, 4, 9, true⟩ := by
  have hok : ∀ i, i < 1 → (fun i => !(i == 1)) ((0 + i) % 4) = true ∧
      (0 + i) % 4 ≠ 3 := by
    intro i hi
    have : i = 0 := by omega
    subst this
    exact ⟨by decide, by decide⟩
  constructor
  · have h := (claim_C3_inv_queue_drain (fun i => !(i == 1))
      ⟨0, 0, 4, 9, false⟩ 3 1 (by decide) (by decide) (by decide) hok
      (by decide) (by decide)).1 rfl
    rw [h]
    rfl
  · have h := (claim_C3_inv_queue_drain (fun i => !(i == 1))
      ⟨0, 0, 4, 9, true⟩ 3 1 (by decide) (by decide) (by decide) hok
      (by decide) (by decide)).2 rfl
    rw [h]

/-- The compression scan misses when no present slot matches the
source-id. -/
theorem vtd_try_collapse_fault_eq_false {n : Nat} {st : FaultState}
    {sid : Nat}
    (h : ∀ i, i < n → ¬(vtd_is_frcd_set st i = true ∧
      st.frcdHi i &&& VTD_FRCD_SID_MASK = sid)) :
    vtd_try_collapse_fault n st sid = false := by
  unfold vtd_try_collapse_fault
  rw [List.any_eq_false]
  intro i hi
  have hi2 := h i (List.mem_range.mp hi)
  simp only [Bool.and_eq_true, bne_iff_ne, beq_iff_eq, not_and]
  intro ha hb
  exact hi2 ⟨by unfold vtd_is_frcd_set; exact bne_iff_ne.mpr ha, hb⟩

/-- The compression scan hits as soon as one present slot matches the
source-id. -/
theorem vtd_try_collapse_fault_eq_true {n : Nat} {st : FaultState}
    {sid : Nat} (i : Nat) (hi : i < n)
    (hF : vtd_is_frcd_set st i = true)
    (hs : st.frcdHi i &&& VTD_FRCD_SID_MASK = sid) :
    vtd_try_collapse_fault n st sid = true := by
  unfold vtd_try_collapse_fault
  rw [List.any_eq_true]
  refine ⟨i, List.mem_range.mpr hi, ?_⟩
  unfold vtd_is_frcd_set at hF
  simp only [Bool.and_eq_true, bne_iff_ne, beq_iff_eq]
  exact ⟨bne_iff_ne.mp hF, hs⟩

/-- C5.  Fault ring overflow: with every slot of the ring present, none of
them recording the new source-id, and the overflow flag clear, one more
qualifying fault only sets the overflow flag: the fault is dropped, and
every slot (contents and present bit), the next-slot cursor, and the
interrupt-edge count are unchanged. -/
theorem claim_C5_fault_ring_overflow (n : Nat) (st : FaultState)
    (source_id hi lo : Nat)
    (hn : st.next_frcd_reg < n)
    (hpfo : st.pfo = false)
    (hfull : ∀ i, i < n → vtd_is_frcd_set st i = true)
    (hnosid : ∀ i, i < n →
      st.frcdHi i &&& VTD_FRCD_SID_MASK ≠ source_id) :
    vtd_report_frcd_fault n st source_id hi lo = { st with pfo := true } ∧
    (∀ i, (vtd_report_frcd_fault n st source_id hi lo).frcdHi i =
      st.frcdHi i) ∧
    (∀ i, (vtd_report_frcd_fault n st source_id hi lo).frcdLo i =
      st.frcdLo i) ∧
    (vtd_report_frcd_fault n st source_id hi lo).next_frcd_reg =
      st.next_frcd_reg ∧
    (vtd_report_frcd_fault n st source_id hi lo).edges = st.edges ∧
    (vtd_report_frcd_fault n st source_id hi lo).pfo = true := by
  have hcol : vtd_try_collapse_fault n st source_id = false :=
    vtd_try_collapse_fault_eq_false
      (fun i hi2 hand => hnosid i hi2 hand.2)
  have hmain : vtd_report_frcd_fault n st source_id hi lo =
      { st with pfo := true } := by
    unfold vtd_report_frcd_fault
    rw [hpfo, hcol, hfull st.next_frcd_reg hn]
    simp
  refine ⟨hmain, ?_, ?_, ?_, ?_, ?_⟩ <;> simp [hmain]

/-- C5 witness: a full 2-slot ring with source-ids 1 and 2, fault from
source-id 3. -/
theorem claim_C5_witness :
    vtd_report_frcd_fault 2
      ⟨fun i => if i = 0 then 0x8000000000000001 else 0x8000000000000002,
       fun _ => 0, 0, false, true, false, 0, false, false, 7⟩ 3 0x30 0x40 =
      { (⟨fun i => if i = 0 then 0x8000000000000001 else 0x8000000000000002,
          fun _ => 0, 0, false, true, false, 0, false, false, 7⟩ :
          FaultState) with pfo := true } :=
  (claim_C5_fault_ring_overflow 2
    ⟨fun i => if i = 0 then 0x8000000000000001 else 0x8000000000000002,
     fun _ => 0, 0, false, true, false, 0, false, false, 7⟩ 3 0x30 0x40
    (by decide) rfl
    (fun i hi => by interval_cases i <;> decide)
    (fun i hi => by interval_cases i <;> decide)).1

set_option maxHeartbeats 1600000 in
/-- C4.  Fault compression: reporting two qualifying faults with the same
source-id, starting from a ring with a free next slot, no overflow and no
present slot already matching that source-id, writes exactly one
fault-record slot (the next slot; all others are untouched), generates at
most one interrupt edge, and drops the second report as compressed: it
finds the present slot with the matching source-id and leaves the whole
state, ring and cursor included, unchanged. -/
theorem claim_C4_fault_compression (n : Nat) (st : FaultState)
    (source_id hi lo hi2 lo2 : Nat)
    (hn : st.next_frcd_reg < n)
    (hpfo : st.pfo = false)
    (hfree : vtd_is_frcd_set st st.next_frcd_reg = false)
    (hnosid : ∀ i, i < n → ¬(vtd_is_frcd_set st i = true ∧
      st.frcdHi i &&& VTD_FRCD_SID_MASK = source_id))
    (hsid : hi &&& VTD_FRCD_SID_MASK = source_id) :
    vtd_report_frcd_fault n (vtd_report_frcd_fault n st source_id hi lo)
        source_id hi2 lo2 =
      vtd_report_frcd_fault n st source_id hi lo ∧
    (vtd_report_frcd_fault n st source_id hi lo).frcdHi st.next_frcd_reg =
      (hi ||| VTD_FRCD_F) ∧
    (∀ i, i ≠ st.next_frcd_reg →
      (vtd_report_frcd_fault n st source_id hi lo).frcdHi i = st.frcdHi i ∧
      (vtd_report_frcd_fault n st source_id hi lo).frcdLo i =
        st.frcdLo i) ∧
    vtd_is_frcd_set (vtd_report_frcd_fault n st source_id hi lo)
      st.next_frcd_reg = true ∧
    (vtd_report_frcd_fault n st source_id hi lo).edges ≤ st.edges + 1 := by
  have hcol1 : vtd_try_collapse_fault n st source_id = false :=
    vtd_try_collapse_fault_eq_false hnosid
  have hFne : ((hi ||| VTD_FRCD_F) &&& VTD_FRCD_F) ≠ 0 := by
    have hbit : ((hi ||| VTD_FRCD_F) &&& VTD_FRCD_F).testBit 63 = true := by
      have h63 : (VTD_FRCD_F : Nat).testBit 63 = true := by decide
      simp [Nat.testBit_and, Nat.testBit_or, h63]
    intro h0
    rw [h0] at hbit
    simp at hbit
  have hsid2 : (hi ||| VTD_FRCD_F) &&& VTD_FRCD_SID_MASK = source_id := by
    rw [land_lor_distrib, hsid]
    rw [show VTD_FRCD_F &&& VTD_FRCD_SID_MASK = 0 from by decide,
      Nat.or_zero]
  have hfacts : (vtd_report_frcd_fault n st source_id hi lo).pfo = false ∧
      (vtd_report_frcd_fault n st source_id hi lo).frcdHi
        st.next_frcd_reg = (hi ||| VTD_FRCD_F) ∧
      (∀ i, i ≠ st.next_frcd_reg →
        (vtd_report_frcd_fault n st source_id hi lo).frcdHi i =
          st.frcdHi i ∧
        (vtd_report_frcd_fault n st source_id hi lo).frcdLo i =
          st.frcdLo i) ∧
      (vtd_report_frcd_fault n st source_id hi lo).edges ≤ st.edges + 1 := by
    unfold vtd_report_frcd_fault
    rw [hpfo, hcol1, hfree]
    simp only [Bool.false_eq_true, if_false]
    unfold vtd_set_frcd_and_update_ppf vtd_update_fsts_ppf vtd_record_frcd
      vtd_generate_fault_event
    cases hppf : st.ppf
    · simp only [Bool.false_eq_true, if_false]
      cases hiqe : st.iqe
      · simp only [Bool.or_self, Bool.false_eq_true, if_false]
        cases him : st.im
        · simp [Function.update_same, Function.update_noteq]
          exact ⟨hpfo, fun i hne =>
            ⟨Function.update_noteq hne _ _, Function.update_noteq hne _ _⟩⟩
        · simp [Function.update_same, Function.update_noteq]
          exact ⟨hpfo, fun i hne =>
            ⟨Function.update_noteq hne _ _, Function.update_noteq hne _ _⟩⟩
      · simp [Function.update_same, Function.update_noteq]
        exact ⟨hpfo, fun i hne =>
          ⟨Function.update_noteq hne _ _, Function.update_noteq hne _ _⟩⟩
    · simp [Function.update_same, Function.update_noteq]
      exact ⟨hpfo, fun i hne =>
        ⟨Function.update_noteq hne _ _, Function.update_noteq hne _ _⟩⟩
  obtain ⟨hpfo1, hslot1, hother1, hedge1⟩ := hfacts
  have hFset : vtd_is_frcd_set (vtd_report_frcd_fault n st source_id hi lo)
      st.next_frcd_reg = true := by
    unfold vtd_is_frcd_set
    rw [hslot1]
    exact bne_iff_ne.mpr hFne
  have hcol2 : vtd_try_collapse_fault n
      (vtd_report_frcd_fault n st source_id hi lo) source_id = true := by
    refine vtd_try_collapse_fault_eq_true st.next_frcd_reg hn hFset ?_
    rw [hslot1]
    exact hsid2
  have hdrop : vtd_report_frcd_fault n
      (vtd_report_frcd_fault n st source_id hi lo) source_id hi2 lo2 =
      vtd_report_frcd_fault n st source_id hi lo := by
    set st1 := vtd_report_frcd_fault n st source_id hi lo with hst1
    unfold vtd_report_frcd_fault
    simp [hpfo1, hcol2]
  exact ⟨hdrop, hslot1, hother1, hFset, hedge1⟩

/-- C4 witness: two faults from source-id 5 into an empty 2-slot ring; the
second is dropped as compressed and changes nothing. -/
theorem claim_C4_witness :
    vtd_report_frcd_fault 2
      (vtd_report_frcd_fault 2 ⟨fun _ => 0, fun _ => 0, 0, false, false,
        false, 0, false, false, 0⟩ 5 5 0x10) 5 5 0x20 =
    vtd_report_frcd_fault 2 ⟨fun _ => 0, fun _ => 0, 0, false, false, false,
      0, false, false, 0⟩ 5 5 0x10 :=
  (claim_C4_fault_compression 2 ⟨fun _ => 0, fun _ => 0, 0, false, false,
      false, 0, false, false, 0⟩ 5 5 0x10 5 0x20 (by decide) rfl (by decide)
    (fun i hi => by interval_cases i <;> decide) (by decide)).1

/-- C10.  Translate failure atomicity at the public interface: whenever
either translate entry point returns false (any fault path), the result
entry is fully zeroed (the first-stage early failure paths return the
caller-provided entry untouched, which the public caller passes in zeroed)
and no leaf-translation-cache entry is inserted for the faulting access. -/
theorem claim_C10_translate_failure (rootScalable : Bool)
    (devToCe : Except VTDFaultReason VTDContextEntry)
    (pasidFpdOf : VTDContextEntry → Nat → Except VTDFaultReason Bool)
    (rid2pasidOf : VTDContextEntry → Nat)
    (ptEnabled : VTDContextEntry → Nat → Bool)
    (walkOf : VTDContextEntry → Nat →
      Except VTDFaultReason (Nat × Nat × Bool × Bool))
    (domainOf : VTDContextEntry → Nat → Nat)
    (awBits : Nat) (st : SLTranslateState) (sourceId pasidArg addr : Nat)
    (devToCe2 : Except VTDFaultReason VTDContextEntry)
    (rid2pasidRes : Option Nat)
    (peOf : VTDContextEntry → Except VTDFaultReason VTDPASIDEntry)
    (peIsPt : VTDPASIDEntry → Bool)
    (flWalkOf : VTDPASIDEntry →
      Except VTDFaultReason (Nat × Nat × Bool × Bool))
    (domainOf2 : VTDPASIDEntry → Nat)
    (awBits2 : Nat) (ptlb : PIotlb) (sourceId2 addr2 : Nat)
    (entryIn : IOMMUTLBEntryM) :
    ((vtd_do_iommu_translate rootScalable devToCe pasidFpdOf rid2pasidOf
        ptEnabled walkOf domainOf awBits st sourceId pasidArg addr).1 =
        false →
      (vtd_do_iommu_translate rootScalable devToCe pasidFpdOf rid2pasidOf
        ptEnabled walkOf domainOf awBits st sourceId pasidArg
        addr).2.1 = zeroedTLBEntry ∧
      (vtd_do_iommu_translate rootScalable devToCe pasidFpdOf rid2pasidOf
        ptEnabled walkOf domainOf awBits st sourceId pasidArg
        addr).2.2.iotlb = st.iotlb) ∧
    ((vtd_do_iommu_fl_translate devToCe2 rid2pasidRes peOf peIsPt flWalkOf
        domainOf2 awBits2 ptlb sourceId2 addr2 entryIn).1 = false →
      (entryIn = zeroedTLBEntry →
        (vtd_do_iommu_fl_translate devToCe2 rid2pasidRes peOf peIsPt
          flWalkOf domainOf2 awBits2 ptlb sourceId2 addr2
          entryIn).2.1 = zeroedTLBEntry) ∧
      (vtd_do_iommu_fl_translate devToCe2 rid2pasidRes peOf peIsPt flWalkOf
        domainOf2 awBits2 ptlb sourceId2 addr2 entryIn).2.2 = ptlb) := by
  constructor
  · unfold vtd_do_iommu_translate
    dsimp only
    repeat' split
    all_goals intro h
    all_goals first
      | exact ⟨rfl, rfl⟩
      | (exfalso; simp at h)
  · unfold vtd_do_iommu_fl_translate
    repeat' split
    all_goals intro h
    all_goals first
      | exact ⟨fun hz => hz, rfl⟩
      | exact ⟨fun _ => rfl, rfl⟩
      | (exfalso; simp at h)

/-- C10 witness: a second-stage translate whose walk faults returns false
with the zeroed entry and an unchanged (empty) cache, and a first-stage
translate whose context-entry fetch fails leaves the zeroed caller entry
and cache untouched. -/
theorem claim_C10_witness :
    ((vtd_do_iommu_translate false (Except.ok ⟨0, 0⟩) (fun _ _ =>
        Except.ok false) (fun _ => 0) (fun _ _ => false)
        (fun _ _ => Except.error VTDFaultReason.pagingEntryInv)
        (fun _ _ => 0) 39 ⟨[], 0, ⟨0, 0⟩, 1⟩ 1 0 0x1000).2.1 =
        zeroedTLBEntry ∧
      (vtd_do_iommu_translate false (Except.ok ⟨0, 0⟩) (fun _ _ =>
        Except.ok false) (fun _ => 0) (fun _ _ => false)
        (fun _ _ => Except.error VTDFaultReason.pagingEntryInv)
        (fun _ _ => 0) 39 ⟨[], 0, ⟨0, 0⟩, 1⟩ 1 0 0x1000).2.2.iotlb = []) ∧
    ((fun r => (zeroedTLBEntry = zeroedTLBEntry → r.2.1 = zeroedTLBEntry) ∧
        r.2.2 = ([] : PIotlb))
      (vtd_do_iommu_fl_translate
        (Except.error VTDFaultReason.contextTableInv) (some 0)
        (fun _ => Except.ok ⟨0⟩) (fun _ => false)
        (fun _ => Except.error VTDFaultReason.pagingEntryInv) (fun _ => 0)
        39 [] 1 0x1000 zeroedTLBEntry)) :=
  ⟨(claim_C10_translate_failure false (Except.ok ⟨0, 0⟩)
      (fun _ _ => Except.ok false) (fun _ => 0) (fun _ _ => false)
      (fun _ _ => Except.error VTDFaultReason.pagingEntryInv) (fun _ _ => 0)
      39 ⟨[], 0, ⟨0, 0⟩, 1⟩ 1 0 0x1000
      (Except.error VTDFaultReason.contextTableInv) (some 0)
      (fun _ => Except.ok ⟨0⟩) (fun _ => false)
      (fun _ => Except.error VTDFaultReason.pagingEntryInv) (fun _ => 0)
      39 [] 1 0x1000 zeroedTLBEntry).1 rfl,
   (claim_C10_translate_failure false (Except.ok ⟨0, 0⟩)
      (fun _ _ => Except.ok false) (fun _ => 0) (fun _ _ => false)
      (fun _ _ => Except.error VTDFaultReason.pagingEntryInv) (fun _ _ => 0)
      39 ⟨[], 0, ⟨0, 0⟩, 1⟩ 1 0 0x1000
      (Except.error VTDFaultReason.contextTableInv) (some 0)
      (fun _ => Except.ok ⟨0⟩) (fun _ => false)
      (fun _ => Except.error VTDFaultReason.pagingEntryInv) (fun _ => 0)
      39 [] 1 0x1000 zeroedTLBEntry).2 rfl⟩

end VTD
